import Mathlib

/-!
# LOLIN-IR firmware: configuration store, network selector, watchdog, event loop

A shallow embedding of `config.h` / `main.h` / `main.cpp`.

* A C `char` is a natural number (a byte value); a C buffer or an Arduino `String` is a
  `List Nat`.
* `CONFIG_TYPE` is the 131-byte record of the source: three flag bytes and three character
  arrays of 32, 32 and 64 bytes, laid out one after the other without padding.
* Reading a C string out of a character array stops at the first NUL byte. The arrays are
  adjacent in memory, so an array that holds no NUL is read on into the bytes that follow it
  inside the record.
* The collaborators (Wi-Fi, DNS, OTA, IR, console) appear as the list of calls made to
  them, `State.trace`, and as parameters that give what they return: the scan list, the
  station status, the clock, the console input, the capture.
* Loops whose end depends on the data (the placeholder substitutions) carry a bound on the
  number of iterations and return `none` when it is reached. The line loops of the console
  command `S` run over the characters the console delivers and return `none` when no
  carriage return arrives.
* Both builds of the watchdog are modelled: the two-phase flag of the ESP8266 build
  (`WatchDog`) and the hardware countdown of the esp32 build (`HwWatchDog`). File reads
  follow the ESP8266 core.
-/

namespace LolinIR

/-! ## Constants -/

/-- `#define EEPROM_SIZE 256` -/
def EEPROM_SIZE : Nat := 256

/-- `#define HOSTNAME_LEN 32` -/
def HOSTNAME_LEN : Nat := 32

/-- `#define WIFI_SSID_LEN 32` -/
def WIFI_SSID_LEN : Nat := 32

/-- `#define WIFI_PASSWD_LEN 64` -/
def WIFI_PASSWD_LEN : Nat := 64

/-- A string literal of the source as its list of character codes. -/
def lit (s : String) : List Nat := s.toList.map Char.toNat

/-- `#define DEFAULT_HOSTNAME "lolin-ir-blaster"` -/
def DEFAULT_HOSTNAME : List Nat := lit "lolin-ir-blaster"

/-- `#define CFG_NOT_SET 0x0` -/
def CFG_NOT_SET : Nat := 0

/-- `#define CFG_SET 0x9` -/
def CFG_SET : Nat := 9

/-- `SHRT_MIN` of `<limits.h>` for a 16-bit `short`. -/
def SHRT_MIN : Int := -32768

/-- `SHRT_MAX` of `<limits.h>` for a 16-bit `short`. -/
def SHRT_MAX : Int := 32767

/-- `#define WATCHDOG_TIMEOUT_S 15` -/
def WATCHDOG_TIMEOUT_S : Nat := 15

/-! ## C string and Arduino `String` primitives -/

/-- The C string stored at the start of a memory region: the bytes before the first NUL. -/
def cstr (mem : List Nat) : List Nat := mem.takeWhile (fun b => b != 0)

/-- `memset(buf, v, n)`: the first `n` bytes of the buffer become `v`. -/
def memset (buf : List Nat) (v n : Nat) : List Nat := List.replicate n v ++ buf.drop n

/-- `strcpy(buf, src)`: the characters of the C string `src` and a terminating NUL are
written at the start of the buffer; the bytes behind them keep their value. -/
def strcpy (buf src : List Nat) : List Nat :=
  cstr src ++ 0 :: buf.drop ((cstr src).length + 1)

/-- `strncpy(buf, src, n)`: at most `n` characters of the C string `src` are written, and
the rest of the first `n` bytes is filled with NUL. -/
def strncpy (buf src : List Nat) (n : Nat) : List Nat :=
  (cstr src).take n ++ List.replicate (n - ((cstr src).take n).length) 0 ++ buf.drop n

/-- Arduino core `String::toCharArray(buf, bufsize)` (that is `getBytes` at index 0):
nothing is written for `bufsize == 0`; an empty `String` writes a single NUL; otherwise
`n = min(bufsize - 1, len)` characters are copied with `strncpy` and `buf[n]` is set to
NUL, so the buffer receives at most `bufsize - 1` characters. -/
def toCharArray (s buf : List Nat) (bufsize : Nat) : List Nat :=
  if bufsize = 0 then buf
  else if s.length = 0 then buf.set 0 0
  else (strncpy buf s (min (bufsize - 1) s.length)).set (min (bufsize - 1) s.length) 0

/-- Arduino core `String::equals(const char*)`: an empty `String` equals an empty C string,
otherwise the two are compared with `strcmp`. -/
def String_equals (s c : List Nat) : Bool :=
  if s.length = 0 then decide (cstr c = []) else decide (cstr s = cstr c)

/-! ## The configuration record -/

/-- `typedef struct config_type \{ ... } CONFIG_TYPE;` -/
structure CONFIG_TYPE where
  hostname_flag : Nat
  hostname : List Nat
  ssid_flag : Nat
  ssid : List Nat
  ssid_pwd_flag : Nat
  ssid_pwd : List Nat
  deriving DecidableEq, Repr

/-- The record has the array sizes of the C declaration. -/
def CONFIG_TYPE.WF (c : CONFIG_TYPE) : Prop :=
  c.hostname.length = HOSTNAME_LEN ∧ c.ssid.length = WIFI_SSID_LEN ∧
    c.ssid_pwd.length = WIFI_PASSWD_LEN

instance (c : CONFIG_TYPE) : Decidable c.WF := by
  unfold CONFIG_TYPE.WF; infer_instance

/-- `sizeof(config)`: 1 + 32 + 1 + 32 + 1 + 64. -/
def CONFIG_SIZE : Nat := 131

/-- The bytes of the record in memory order. -/
def CONFIG_TYPE.toBytes (c : CONFIG_TYPE) : List Nat :=
  c.hostname_flag :: c.hostname ++ c.ssid_flag :: c.ssid ++ c.ssid_pwd_flag :: c.ssid_pwd

/-- The record laid over a region of memory. -/
def CONFIG_TYPE.ofBytes (m : List Nat) : CONFIG_TYPE :=
  { hostname_flag := m.getD 0 0
    hostname := (m.drop 1).take HOSTNAME_LEN
    ssid_flag := m.getD 33 0
    ssid := (m.drop 34).take WIFI_SSID_LEN
    ssid_pwd_flag := m.getD 66 0
    ssid_pwd := (m.drop 67).take WIFI_PASSWD_LEN }

/-- `String(config.hostname)`: the C string that starts at the `hostname` array. -/
def CONFIG_TYPE.hostnameStr (c : CONFIG_TYPE) : List Nat :=
  cstr (c.hostname ++ c.ssid_flag :: c.ssid ++ c.ssid_pwd_flag :: c.ssid_pwd)

/-- `String(config.ssid)`: the C string that starts at the `ssid` array. -/
def CONFIG_TYPE.ssidStr (c : CONFIG_TYPE) : List Nat :=
  cstr (c.ssid ++ c.ssid_pwd_flag :: c.ssid_pwd)

/-- `String(config.ssid_pwd)`: the C string that starts at the `ssid_pwd` array. -/
def CONFIG_TYPE.ssid_pwdStr (c : CONFIG_TYPE) : List Nat :=
  cstr c.ssid_pwd

/-! ## Program state -/

/-- `WiFiMode_t`, the two modes the program uses. -/
inductive WiFiMode where
  | WIFI_STA
  | WIFI_AP
  deriving DecidableEq, Repr

/-- The values `wifiState` takes: its initial value and the disconnect event. -/
inductive WiFiEvent where
  | WIFI_EVENT_MAX
  | WIFI_DISCONNECTED
  deriving DecidableEq, Repr

/-- Calls into the collaborators (Wi-Fi, DNS, OTA, IR, system) in program order, and the
calls of `watchDogRefresh()` a console command makes while it waits for input. -/
inductive Action where
  | WiFi_hostname (name : List Nat)
  | WiFi_mode (m : WiFiMode)
  | WiFi_begin (ssid pwd bssid : List Nat)
  | blink
  | configTime
  | WiFi_softAP (name : List Nat)
  | dnsServer_start
  | dnsServer_processNextRequest
  | ArduinoOTA_handle
  | ElegantOTA_loop
  | delay (ms : Nat)
  | ESP_restart
  | WiFi_disconnect
  | disconnectClient
  | irrecv_pause
  | irsend_sendRaw (data : List Nat) (khz : Nat)
  | irrecv_resume
  | watchDogRefresh
  deriving DecidableEq, Repr

/-- The LittleFS file system: file names with their contents. -/
abbrev FileSystem := List (List Nat × List Nat)

/-- The globals of `config.h` and the persistent stores behind the collaborators. -/
structure State where
  config : CONFIG_TYPE
  eeprom : List Nat
  wifimode : WiFiMode
  wifiState : WiFiEvent
  esp_reboot_requested : Bool
  setup_needs_update : Bool
  ap_mode_activity : Bool
  files : FileSystem
  trace : List Action
  deriving DecidableEq, Repr

/-- `EEPROM.begin(EEPROM_SIZE); EEPROM.get(0, config); EEPROM.end();` -/
def EEPROM_get (e : List Nat) : CONFIG_TYPE := CONFIG_TYPE.ofBytes (e.take CONFIG_SIZE)

/-- `EEPROM.begin(EEPROM_SIZE); EEPROM.put(0, config); EEPROM.commit(); EEPROM.end();` -/
def EEPROM_put (e : List Nat) (c : CONFIG_TYPE) : List Nat := c.toBytes ++ e.drop CONFIG_SIZE

/-! ## Persistent Config Store -/

/-- `void wireConfig()` -/
def wireConfig (s : State) : State :=
  let c0 := EEPROM_get s.eeprom
  let c1 := if c0.hostname_flag ≠ CFG_SET then
      { c0 with hostname := strcpy c0.hostname DEFAULT_HOSTNAME } else c0
  let c2 := if c1.ssid_flag = CFG_SET then c1
    else { c1 with ssid := memset c1.ssid CFG_NOT_SET WIFI_SSID_LEN }
  let mode := if c1.ssid_flag = CFG_SET then
      (if c1.ssidStr.length > 0 then WiFiMode.WIFI_STA else s.wifimode)
    else WiFiMode.WIFI_AP
  let c3 := if c2.ssid_pwd_flag ≠ CFG_SET then
      { c2 with ssid_pwd := memset c2.ssid_pwd CFG_NOT_SET WIFI_PASSWD_LEN } else c2
  { s with config := c3, wifimode := mode }

/-- `void saveConfig(String hostname, String ssid, String ssid_pwd)` -/
def saveConfig (hostname ssid ssid_pwd : List Nat) (s : State) : State :=
  let c := s.config
  let c := { c with hostname := memset c.hostname CFG_NOT_SET HOSTNAME_LEN }
  let c := if hostname.length > 0 then
      { c with hostname_flag := CFG_SET,
               hostname := toCharArray hostname c.hostname HOSTNAME_LEN }
    else
      { c with hostname_flag := CFG_NOT_SET,
               hostname := toCharArray DEFAULT_HOSTNAME c.hostname HOSTNAME_LEN }
  let c := { c with ssid := memset c.ssid CFG_NOT_SET WIFI_SSID_LEN }
  let c := if ssid.length > 0 then
      { c with ssid := toCharArray ssid c.ssid WIFI_SSID_LEN, ssid_flag := CFG_SET }
    else { c with ssid_flag := CFG_NOT_SET }
  let c := { c with ssid_pwd := memset c.ssid_pwd CFG_NOT_SET WIFI_PASSWD_LEN }
  let c := if ssid_pwd.length > 0 then
      { c with ssid_pwd := toCharArray ssid_pwd c.ssid_pwd WIFI_PASSWD_LEN,
               ssid_pwd_flag := CFG_SET }
    else { c with ssid_pwd_flag := CFG_NOT_SET }
  { s with config := c, eeprom := EEPROM_put s.eeprom c, setup_needs_update := true }

/-- `void wipeConfig()` -/
def wipeConfig (s : State) : State :=
  let c := s.config
  let c := { c with hostname_flag := CFG_NOT_SET }
  let c := { c with hostname := strcpy c.hostname DEFAULT_HOSTNAME }
  let c := { c with ssid_flag := CFG_NOT_SET }
  let c := { c with ssid := memset c.ssid CFG_NOT_SET WIFI_SSID_LEN }
  let c := { c with ssid_pwd_flag := CFG_NOT_SET }
  let c := { c with ssid_pwd := memset c.ssid_pwd CFG_NOT_SET WIFI_PASSWD_LEN }
  { s with config := c, eeprom := EEPROM_put s.eeprom c }

/-- The state of the globals at power-on (their initialisers in `config.h`), over a given
stored record and file system. The `config` global is zero-initialised. -/
def powerOn (eeprom : List Nat) (files : FileSystem) : State :=
  { config := CONFIG_TYPE.ofBytes (List.replicate CONFIG_SIZE 0)
    eeprom := eeprom
    wifimode := WiFiMode.WIFI_AP
    wifiState := WiFiEvent.WIFI_EVENT_MAX
    esp_reboot_requested := false
    setup_needs_update := false
    ap_mode_activity := false
    files := files
    trace := [] }

/-! ## Network Selector -/

/-- One entry of the Wi-Fi scan: the SSID bytes, the BSSID and the signal strength that
`WiFi.SSID(i)`, `WiFi.BSSID(i)` and `WiFi.RSSI(i)` report for it. -/
structure Candidate where
  ssid : List Nat
  bssid : List Nat
  rssi : Int
  deriving DecidableEq, Repr

/-- `WiFi.SSID(i)`: an Arduino `String` built from the C string of the entry. -/
def WiFi_SSID (c : Candidate) : List Nat := cstr c.ssid

/-- Conversion of an `int` to the 16-bit `short bestRssi` on assignment. -/
def toShort (v : Int) : Int := (v + 32768) % 65536 - 32768

/-- The memory `config.ssid` points to when it is passed as a `const char*`. -/
def CONFIG_TYPE.ssidMem (c : CONFIG_TYPE) : List Nat :=
  c.ssid ++ c.ssid_pwd_flag :: c.ssid_pwd

/-- The locals `bestRssi` and `bestBssid` of `coreSetup`. -/
structure Best where
  bestRssi : Int
  bestBssid : List Nat
  deriving DecidableEq, Repr

/-- The initial values: `bestRssi = SHRT_MIN`, `bestBssid = &nothing` with `nothing = 0`. -/
def Best.init : Best := { bestRssi := SHRT_MIN, bestBssid := [0] }

/-- The body of the scan loop of `coreSetup` for entry `c`. -/
def scanStep (config : CONFIG_TYPE) (b : Best) (c : Candidate) : Best :=
  if config.ssid_flag = CFG_SET ∧ String_equals (WiFi_SSID c) config.ssidMem = true
      ∧ c.rssi > b.bestRssi then
    { bestRssi := toShort c.rssi, bestBssid := c.bssid }
  else b

/-- The scan loop of `coreSetup`: `for (int i = 0; i < n; ++i) ...` over the scan list. -/
def selectBest (config : CONFIG_TYPE) (scan : List Candidate) : Best :=
  scan.foldl (scanStep config) Best.init

/-- The association wait
`for (tiny_int x = 0; x < 120 && WiFi.status() != WL_CONNECTED; x++) blink();`
with `remaining = 120 - x`; `status t` tells whether `WiFi.status()` is `WL_CONNECTED`
after `t` calls of `blink`. The result is the final value of `x`. -/
def retryLoop (status : Nat → Bool) : Nat → Nat → Nat
  | 0, x => x
  | remaining + 1, x => if status x then x else retryLoop status remaining (x + 1)

/-- The condition `wifimode == WIFI_STA && bestRssi != SHRT_MIN` under which `coreSetup`
calls `WiFi.begin` and waits for the association. -/
def stationAttempt (scan : List Candidate) (s : State) : Bool :=
  decide (s.wifimode = WiFiMode.WIFI_STA ∧ (selectBest s.config scan).bestRssi ≠ SHRT_MIN)

/-- The number of `blink` calls the association wait of `coreSetup` makes; none when no
station attempt is made. Time passes only inside `blink` (its `delay` calls), so the
station status is a function of whether `WiFi.begin` was called and of the number of
`blink` calls made so far: `status began t`. -/
def blinkCount (status : Bool → Nat → Bool) (scan : List Candidate) (s : State) : Nat :=
  if stationAttempt scan s then retryLoop (status true) 120 0 else 0

/-- Whether `WiFi.status() == WL_CONNECTED` holds in the two tests that follow the
association wait in `coreSetup`. -/
def connectedAfterWait (status : Bool → Nat → Bool) (scan : List Candidate) (s : State) :
    Bool :=
  status (stationAttempt scan s) (blinkCount status scan s)

/-- The Wi-Fi part of `coreSetup`, from `WiFi.persistent(false)` to the access-point
fallback, run on the state `wireConfig` left: the hostname and mode are set; if a station
attempt is made, `WiFi.begin`, the association wait and the time setup follow; if the
station is not connected or the mode is access point, the access point and the DNS
responder are started. -/
def coreSetupNetwork (status : Bool → Nat → Bool) (scan : List Candidate) (s : State) :
    State :=
  let setup := [Action.WiFi_hostname s.config.hostnameStr, Action.WiFi_mode s.wifimode]
  let station := if stationAttempt scan s then
      Action.WiFi_begin s.config.ssidStr s.config.ssid_pwdStr
          (selectBest s.config scan).bestBssid ::
        List.replicate (blinkCount status scan s) Action.blink ++
        (if connectedAfterWait status scan s then [Action.configTime] else [])
    else []
  if connectedAfterWait status scan s = false ∨ s.wifimode = WiFiMode.WIFI_AP then
    { s with wifimode := WiFiMode.WIFI_AP
             trace := s.trace ++ setup ++ station ++ [Action.WiFi_mode WiFiMode.WIFI_AP,
               Action.WiFi_softAP s.config.hostnameStr, Action.dnsServer_start] }
  else { s with trace := s.trace ++ setup ++ station }

/-- A Wi-Fi collaborator whose station is `WL_CONNECTED` only once `WiFi.begin` has been
called and the association, whose progress `assoc` describes, has completed. -/
def WiFi_status (assoc : Nat → Bool) (began : Bool) (t : Nat) : Bool := began && assoc t

/-! ## Timestamps -/

/-- The broken-down local time `getLocalTime` fills in. -/
structure TM where
  tm_year : Nat
  tm_mon : Nat
  tm_mday : Nat
  tm_hour : Nat
  tm_min : Nat
  tm_sec : Nat
  deriving DecidableEq, Repr

/-- What the clock collaborators return during one call of `getTimestamp`: the value of
`millis()` and the result of `getLocalTime` (`none` when it fails). -/
structure Clock where
  millis : Nat
  localTime : Option TM
  deriving DecidableEq, Repr

/-- The decimal digits of a number, as character codes. -/
def decimal (n : Nat) : List Nat := (Nat.toDigits 10 n).map Char.toNat

/-- Left padding to a minimum width, as `printf` does for `%06lu`, `%4d` or `%2.2d`. -/
def padLeft (width pad : Nat) (digits : List Nat) : List Nat :=
  List.replicate (width - digits.length) pad ++ digits

/-- `String getTimestamp()` -/
def getTimestamp (wifimode : WiFiMode) (clk : Clock) : List Nat :=
  match (if wifimode = WiFiMode.WIFI_AP then none else clk.localTime) with
  | none =>
    padLeft 6 48 (decimal (clk.millis / 1000)) ++ lit "." ++
      padLeft 3 48 (decimal (clk.millis % 1000))
  | some t =>
    padLeft 4 32 (decimal (t.tm_year + 1900)) ++ lit "-" ++
      padLeft 2 48 (decimal (t.tm_mon + 1)) ++ lit "-" ++
      padLeft 2 48 (decimal t.tm_mday) ++ lit " " ++
      padLeft 2 48 (decimal t.tm_hour) ++ lit ":" ++
      padLeft 2 48 (decimal t.tm_min) ++ lit ":" ++
      padLeft 2 48 (decimal t.tm_sec)

/-! ## HTML template rebuild -/

/-- Search of `find` in `s` from position `i` on (`strstr`), `-1` when it is absent. -/
def indexOfFrom (find : List Nat) : List Nat → Nat → Int
  | [], _ => -1
  | c :: cs, i => if find.isPrefixOf (c :: cs) then (i : Int) else indexOfFrom find cs (i + 1)

/-- Arduino core `String::indexOf(find, 0)`. -/
def indexOf (s find : List Nat) : Int := indexOfFrom find s 0

/-- One left-to-right pass that replaces the occurrences of `find`; `skip` counts the
characters of the occurrence just replaced that are still to be passed over. -/
def replaceFrom (find repl : List Nat) : Nat → List Nat → List Nat
  | _, [] => []
  | skip + 1, _ :: cs => replaceFrom find repl skip cs
  | 0, c :: cs =>
    if find.isPrefixOf (c :: cs) then repl ++ replaceFrom find repl (find.length - 1) cs
    else c :: replaceFrom find repl 0 cs

/-- Arduino core `String::replace(find, repl)`: every occurrence of `find` is replaced,
and nothing happens when `find` is empty. -/
def replace (s find repl : List Nat) : List Nat :=
  if find.length = 0 then s else replaceFrom find repl 0 s

/-- The loop `while (html.indexOf(find, 0) != -1) html.replace(find, repl);` with a bound
on the number of iterations; `none` when the bound is reached. -/
def replaceWhile (find repl : List Nat) : Nat → List Nat → Option (List Nat)
  | 0, _ => none
  | fuel + 1, html =>
    if indexOf html find ≠ -1 then replaceWhile find repl fuel (replace html find repl)
    else some html

/-- `LittleFS.open(name, FILE_READ)`: the content of the file, `none` when it does not
exist. -/
def fsRead (fs : FileSystem) (name : List Nat) : Option (List Nat) :=
  (fs.find? (fun f => f.1 = name)).map (fun f => f.2)

/-- ESP8266 core `File::readString()`: the file is read in chunks of 256 bytes, and each
chunk is appended to the result as a C string, that is up to its first NUL byte. The
first argument bounds the number of chunks. -/
def readChunks : Nat → List Nat → List Nat
  | 0, _ => []
  | n + 1, content =>
    if content = [] then []
    else cstr (content.take 256) ++ readChunks n (content.drop 256)

/-- `file.readString()` on a file with the given content. -/
def readString (content : List Nat) : List Nat := readChunks content.length content

/-- `LittleFS.remove(name)` -/
def fsRemove (fs : FileSystem) (name : List Nat) : FileSystem :=
  fs.filter (fun f => f.1 ≠ name)

/-- `LittleFS.open(name, FILE_WRITE)`, one write of `content`, `close()`: the file is
created or truncated and then holds `content`. -/
def fsWrite (fs : FileSystem) (name content : List Nat) : FileSystem :=
  (name, content) :: fsRemove fs name

/-- `LittleFS.rename(src, dst)`: nothing happens when `src` does not exist. -/
def fsRename (fs : FileSystem) (src dst : List Nat) : FileSystem :=
  match fsRead fs src with
  | none => fs
  | some content => (dst, content) :: fsRemove (fsRemove fs src) dst

/-- The three substitution loops of `updateHtmlTemplate` that insert the configuration:
`{hostname}`, `{ssid}` and `{ssid_pwd}`. `none` when a loop does not finish within `fuel`
iterations. -/
def substituteConfig (fuel : Nat) (config : CONFIG_TYPE) (html : List Nat) :
    Option (List Nat) :=
  (replaceWhile (lit "{hostname}") config.hostnameStr fuel html).bind fun html =>
  (replaceWhile (lit "{ssid}") config.ssidStr fuel html).bind fun html =>
  replaceWhile (lit "{ssid_pwd}") config.ssid_pwdStr fuel html

/-- The timestamp block of `updateHtmlTemplate`:
`if (html.indexOf("{timestamp}", 0) != 1) \{ String timestamp = getTimestamp(); while ... }`
where `ts` is what `getTimestamp()` returns. -/
def substituteTimestamp (fuel : Nat) (ts : List Nat) (html : List Nat) : Option (List Nat) :=
  if indexOf html (lit "{timestamp}") ≠ 1 then replaceWhile (lit "{timestamp}") ts fuel html
  else some html

/-- The placeholder substitutions of `updateHtmlTemplate` on the template text. -/
def substitute (fuel : Nat) (config : CONFIG_TYPE) (ts : List Nat) (html : List Nat) :
    Option (List Nat) :=
  (substituteConfig fuel config html).bind (substituteTimestamp fuel ts)

/-- `void updateHtmlTemplate(String template_filename, bool showTime)`; `showTime` only
controls a log line. The page is written to the file whose name is the template name
without `.template`, through a `.new` file that is then renamed. -/
def updateHtmlTemplate (fuel : Nat) (template_filename : List Nat) (_showTime : Bool)
    (clk : Clock) (s : State) : Option State :=
  let output_filename := replace template_filename (lit ".template") []
  match fsRead s.files template_filename with
  | none => some s
  | some content =>
    (substitute fuel s.config (getTimestamp s.wifimode clk) (readString content)).map
      fun html =>
      let fs := fsWrite s.files (output_filename ++ lit ".new") (cstr html)
      let fs := fsRemove fs output_filename
      { s with files := fsRename fs (output_filename ++ lit ".new") output_filename }

/-- The template the program rebuilds. -/
def setupTemplate : List Nat := lit "/setup.template.html"

/-- The page the rebuild of `setupTemplate` writes. -/
def setupPage : List Nat := lit "/setup.html"

/-! ## Boot sequence and event loop -/

/-- `void coreSetup()`: `wireConfig`, the Wi-Fi part, the first template rebuild. The OTA
and web-server registrations and the arming of the watchdog that follow change none of
the globals. `none` when the template rebuild does not finish within `fuel`. -/
def coreSetup (fuel : Nat) (status : Bool → Nat → Bool) (scan : List Candidate)
    (clk : Clock) (s : State) : Option State :=
  updateHtmlTemplate fuel setupTemplate false clk
    (coreSetupNetwork status scan (wireConfig s))

/-! ## Web handlers, OTA callbacks and the disconnect handler -/

/-- The requests the handlers of `wireWebServerAndPaths` serve: `/`, `/setup`, one of the
six captive-portal probe paths, `/reboot`, `/save` with its three parameters, `/load`,
`/wipe` with or without `noreboot`, and any other URL (the not-found handler). -/
inductive Request where
  | root
  | setup
  | captive
  | reboot
  | save (hostname ssid ssid_pwd : List Nat)
  | load
  | wipe (noreboot : Bool)
  | notFound
  deriving DecidableEq, Repr

/-- The handlers registered by `void wireWebServerAndPaths()`, as the effect of one request
on the globals. Responses and log output are not part of the state. -/
def webHandler (r : Request) (s : State) : State :=
  match r with
  | Request.root => { s with ap_mode_activity := true }
  | Request.setup => s
  | Request.captive => { s with ap_mode_activity := true }
  | Request.reboot => { s with esp_reboot_requested := true }
  | Request.save hostname ssid ssid_pwd => saveConfig hostname ssid ssid_pwd s
  | Request.load => { wireConfig s with setup_needs_update := true }
  | Request.wipe noreboot =>
    if noreboot then wipeConfig s else { wipeConfig s with esp_reboot_requested := true }
  | Request.notFound => { s with ap_mode_activity := true }

/-- `void onOTAEnd(bool success)` -/
def onOTAEnd (success : Bool) (s : State) : State :=
  if success then { s with esp_reboot_requested := true } else s

/-- The `ArduinoOTA.onEnd` callback of `wireArduinoOTA`. -/
def ArduinoOTA_onEnd (s : State) : State := { s with esp_reboot_requested := true }

/-- The `disconnectHandler` registered in `coreSetup`. -/
def disconnectHandler (s : State) : State :=
  if s.esp_reboot_requested = false then { s with wifiState := WiFiEvent.WIFI_DISCONNECTED }
  else s

/-! ## Signal artifacts and the debug console -/

/-- The history log. -/
def signalsFile : List Nat := lit "/signals.txt"

/-- The last-signal snapshot. -/
def lastSignalFile : List Nat := lit "/last_signal.txt"

/-- The two bytes of a `uint16_t` in memory (little endian). -/
def u16le (v : Nat) : List Nat := [v % 256, v / 256 % 256]

/-- The bytes of a `uint16_t` array in memory. -/
def rawBytes (raw : List Nat) : List Nat := raw.flatMap u16le

/-- The first `n` `uint16_t` values read from a region of memory. -/
def readU16 : List Nat → Nat → List Nat
  | _, 0 => []
  | mem, n + 1 => (mem.getD 0 0 + 256 * mem.getD 1 0) :: readU16 (mem.drop 2) n

/-- `LittleFS.open(name, FILE_APPEND)`, one write of `content`, `close()`. -/
def fsAppend (fs : FileSystem) (name content : List Nat) : FileSystem :=
  match fsRead fs name with
  | none => (name, content) :: fs
  | some old => fsWrite fs name (old ++ content)

/-- What the console delivers to `checkForRemoteCommand`: the character its first
`SerialAndTelnet.read()` returns, and what the tests `SerialAndTelnet.available() > 0` made
after it find, one entry per test in order: `none` when nothing is available, else the
character the following `read()` returns. After the last entry nothing arrives any more. -/
structure ConsoleInput where
  c : Nat
  polls : List (Option Nat)
  deriving DecidableEq, Repr

/-- One of the two line loops of the command `S`,
`do { if (available() > 0) { c = read(); if (c != 10 && c != 13) line = line + String(c); }
watchDogRefresh(); } while (c != 13);`
run on the tests `polls`, the current value of `c`, the line read so far and the number of
passes made so far. `String(c)` of the character 0 is the empty string. The result is the
line, the tests left over and the number of passes (one `watchDogRefresh()` each); `none`
when the loop never ends: no carriage return is read and nothing arrives any more. -/
def readLine : List (Option Nat) → Nat → List Nat → Nat →
    Option (List Nat × List (Option Nat) × Nat)
  | [], c, line, n => if c = 13 then some (line, [], n + 1) else none
  | none :: rest, c, line, n =>
    if c = 13 then some (line, rest, n + 1) else readLine rest c line (n + 1)
  | some ch :: rest, _, line, n =>
    let line := if ch ≠ 10 ∧ ch ≠ 13 then line ++ cstr [ch] else line
    if ch = 13 then some (line, rest, n + 1) else readLine rest ch line (n + 1)

/-- `void checkForRemoteCommand()` (build with `ENABLE_DEBUG`) for one available
character; `none` when the call never returns. `heap` is the memory behind the buffer of
`rawString` in the command `T`. The command `S` reads its two lines in two loops that wait
for a carriage return; `c` is 13 when the second loop is entered; the calls of
`watchDogRefresh()` the loops make are recorded in the trace (the flag they clear is the
one of `WatchDog`). The commands that only print (line ends, `F`, blank, `C`, `H`, help)
leave the state as it is. -/
def checkForRemoteCommand (heap : List Nat) (inp : ConsoleInput) (s : State) :
    Option State :=
  if inp.c = Char.toNat 'D' then some { s with trace := s.trace ++ [Action.WiFi_disconnect] }
  else if inp.c = Char.toNat 'S' then
    match readLine inp.polls inp.c [] 0 with
    | none => none
    | some (ssid, rest, n1) =>
      match readLine rest 13 [] 0 with
      | none => none
      | some (ssid_pwd, _, n2) =>
        let c := s.config
        let c := { c with ssid := memset c.ssid CFG_NOT_SET WIFI_SSID_LEN }
        let c := if ssid.length > 0 then
            { c with ssid := toCharArray ssid c.ssid WIFI_SSID_LEN, ssid_flag := CFG_SET }
          else { c with ssid_flag := CFG_NOT_SET }
        let c := { c with ssid_pwd := memset c.ssid_pwd CFG_NOT_SET WIFI_PASSWD_LEN }
        let c := if ssid_pwd.length > 0 then
            { c with ssid_pwd := toCharArray ssid_pwd c.ssid_pwd WIFI_PASSWD_LEN,
                     ssid_pwd_flag := CFG_SET }
          else { c with ssid_pwd_flag := CFG_NOT_SET }
        some { s with config := c, eeprom := EEPROM_put s.eeprom c,
                      trace := s.trace ++ List.replicate (n1 + n2) Action.watchDogRefresh }
  else if inp.c = Char.toNat 'L' then some { wireConfig s with setup_needs_update := true }
  else if inp.c = Char.toNat 'W' then some (wipeConfig s)
  else if inp.c = Char.toNat 'X' then
    some { s with trace := s.trace ++ [Action.disconnectClient] }
  else if inp.c = Char.toNat 'R' then some { s with esp_reboot_requested := true }
  else if inp.c = Char.toNat 'T' then
    match fsRead s.files lastSignalFile with
    | none => some s
    | some content =>
      if content.length > 0 then
        some { s with trace := s.trace ++
            [Action.irrecv_pause,
             Action.irsend_sendRaw
               (readU16 (readString content ++ 0 :: heap) (readString content).length) 38,
             Action.irrecv_resume] }
      else some s
  else some s

/-- `LOG_HANDLE()`: nothing in the build without `ENABLE_DEBUG` or when no character is
available (`none`), else `checkForRemoteCommand`; the result is `none` when that call never
returns. -/
def LOG_HANDLE (heap : List Nat) (input : Option ConsoleInput) (s : State) : Option State :=
  match input with
  | none => some s
  | some inp => checkForRemoteCommand heap inp s

/-- How a call of `coreLoop` ends: it returns, it restarts the device, or it never ends. -/
inductive Outcome where
  | returned (s : State)
  | restarted (s : State)
  | diverged
  deriving DecidableEq, Repr

/-- The servicing part of `coreLoop`: the captive-portal DNS in access-point mode, else
the two OTA collaborators; then the idle rule
`wifimode == WIFI_AP && !ap_mode_activity && millis() >= 300000UL`. -/
def coreLoopService (millis : Nat) (s : State) : State :=
  let s := if s.wifimode = WiFiMode.WIFI_AP then
      { s with trace := s.trace ++ [Action.dnsServer_processNextRequest] }
    else { s with trace := s.trace ++ [Action.ArduinoOTA_handle, Action.ElegantOTA_loop] }
  if s.wifimode = WiFiMode.WIFI_AP ∧ s.ap_mode_activity = false ∧ millis ≥ 300000 then
    { s with esp_reboot_requested := true }
  else s

/-- The end of `coreLoop`: the deferred rebuild of the setup page. -/
def coreLoopRebuild (fuel : Nat) (clk : Clock) (s : State) : Outcome :=
  if s.setup_needs_update then
    match updateHtmlTemplate fuel setupTemplate false clk s with
    | none => Outcome.diverged
    | some s => Outcome.returned { s with setup_needs_update := false }
  else Outcome.returned s

/-- `void coreLoop()`. `console1` and `console2` are what the two `LOG_HANDLE()` calls find
(`none` in the build without `ENABLE_DEBUG`), `millis` is the value `millis()` returns in
the idle check, `clk` what the clock returns inside the template rebuild. No collaborator
callback runs during the call. The call never ends when a console command or the template
rebuild never ends. -/
def coreLoop (fuel : Nat) (millis : Nat) (clk : Clock) (heap : List Nat)
    (console1 console2 : Option ConsoleInput) (s : State) : Outcome :=
  match LOG_HANDLE heap console1 s with
  | none => Outcome.diverged
  | some s =>
    if s.esp_reboot_requested then
      match LOG_HANDLE heap console2
          { s with trace := s.trace ++ [Action.ElegantOTA_loop, Action.delay 1000] } with
      | none => Outcome.diverged
      | some s => Outcome.restarted { s with trace := s.trace ++ [Action.ESP_restart] }
    else if s.wifimode ≠ WiFiMode.WIFI_AP ∧ s.wifiState = WiFiEvent.WIFI_DISCONNECTED then
      Outcome.returned { s with esp_reboot_requested := true }
    else coreLoopRebuild fuel clk (coreLoopService millis s)

/-! ## Watchdog Supervisor -/

/-- The watchdog of the ESP8266 build: the flag `timer_pinged` and whether `ESP.restart()`
has been called by the timer handler. -/
structure WatchDog where
  timer_pinged : Bool
  restarted : Bool
  deriving DecidableEq, Repr

/-- The watchdog when `coreSetup` arms it: `timer_pinged` is zero-initialised. -/
def WatchDog.armed : WatchDog := { timer_pinged := false, restarted := false }

/-- `void IRAM_ATTR TimerHandler()` -/
def TimerHandler (w : WatchDog) : WatchDog :=
  if w.timer_pinged then { w with restarted := true } else { w with timer_pinged := true }

/-- `void watchDogRefresh()`, ESP8266 branch. -/
def watchDogRefresh (w : WatchDog) : WatchDog :=
  if w.timer_pinged then { w with timer_pinged := false } else w

/-- The two events the watchdog sees. -/
inductive WdEvent where
  | refresh
  | expiry
  deriving DecidableEq, Repr

/-- One event; nothing runs any more once the device has been restarted. -/
def wdStep (w : WatchDog) (e : WdEvent) : WatchDog :=
  if w.restarted then w
  else match e with
    | WdEvent.refresh => watchDogRefresh w
    | WdEvent.expiry => TimerHandler w

/-- The timer interval in milliseconds: `ITimer.attachInterruptInterval` is given
`WATCHDOG_TIMEOUT_S * 1000000` microseconds. -/
def wdInterval : Nat := WATCHDOG_TIMEOUT_S * 1000

/-- The refresh calls, given by their times in milliseconds since arming, that fall in
timer period `k`, from expiry `k` (arming for `k = 0`) up to expiry `k + 1`. -/
def refreshesIn (refreshes : List Nat) (k : Nat) : List Nat :=
  refreshes.filter (fun t => k * wdInterval ≤ t ∧ t < (k + 1) * wdInterval)

/-- The events of timer period `k`: its refresh calls, then the expiry that ends it. -/
def wdPeriod (refreshes : List Nat) (k : Nat) : List WdEvent :=
  (refreshesIn refreshes k).map (fun _ => WdEvent.refresh) ++ [WdEvent.expiry]

/-- The events of the first `n` timer periods in order. -/
def wdTimeline (refreshes : List Nat) : Nat → List WdEvent
  | 0 => []
  | n + 1 => wdTimeline refreshes n ++ wdPeriod refreshes n

/-- The watchdog after the first `n` timer periods. -/
def wdRun (refreshes : List Nat) (n : Nat) : WatchDog :=
  (wdTimeline refreshes n).foldl wdStep WatchDog.armed

/-- The watchdog of the esp32 build: a hardware timer that counts up from the last
`timerWrite(watchDogTimer, 0)` and raises `watchDogInterrupt` when it reaches the alarm
value of `WATCHDOG_TIMEOUT_S` seconds. `since` is the time, in milliseconds since arming,
at which the counter was last zero. -/
structure HwWatchDog where
  since : Nat
  restarted : Bool
  deriving DecidableEq, Repr

/-- The hardware watchdog when `coreSetup` arms it. -/
def HwWatchDog.armed : HwWatchDog := { since := 0, restarted := false }

/-- `void IRAM_ATTR watchDogInterrupt()` -/
def watchDogInterrupt (w : HwWatchDog) : HwWatchDog := { w with restarted := true }

/-- Time passes up to `t`: the alarm is raised if the counter has reached the timeout. -/
def hwAdvance (w : HwWatchDog) (t : Nat) : HwWatchDog :=
  if w.restarted then w
  else if w.since + wdInterval ≤ t then watchDogInterrupt w
  else w

/-- `void watchDogRefresh()`, esp32 branch, called at time `t`: `timerWrite(watchDogTimer, 0)`
unless the alarm has been raised before. -/
def hwRefresh (w : HwWatchDog) (t : Nat) : HwWatchDog :=
  if (hwAdvance w t).restarted then hwAdvance w t else { w with since := t }

/-- The hardware watchdog at time `horizon`, after the refresh calls made at the given
times (in call order). -/
def hwRun (refreshes : List Nat) (horizon : Nat) : HwWatchDog :=
  hwAdvance (refreshes.foldl hwRefresh HwWatchDog.armed) horizon

/-! ## The main loop and the IR capture bridge -/

/-- What `irrecv.decode(&results)` reports for a capture: the array `resultToRawArray`
builds from it, `results.rawlen`, and the two flags. -/
structure Capture where
  raw : List Nat
  rawlen : Nat
  repeat_flag : Bool
  overflow : Bool
  deriving DecidableEq, Repr

/-- The body of `if (irrecv.decode(&results) && !results.repeat && !results.overflow)` in
`loop()`: a record is appended to the history log and the snapshot is overwritten.
`heap` is the memory behind the array `rawBuf`, which `(char*)rawBuf` is read into when
the array holds no NUL byte. -/
def saveCapture (cap : Capture) (heap : List Nat) (clk : Clock) (s : State) : State :=
  let mem := rawBytes cap.raw ++ heap
  let fs := fsAppend s.files signalsFile
    (getTimestamp s.wifimode clk ++ lit ": [" ++ cstr mem ++ lit "]\n")
  { s with files := fsWrite fs lastSignalFile (mem.take cap.rawlen) }

/-- `void loop()`: `coreLoop`, the capture bridge, `watchDogRefresh`. `cap` is what
`irrecv.decode` reports when it is called (`none` when it returns false); it is called
only if `coreLoop` returns. `w` is the watchdog flag as `coreLoop` leaves it. -/
def loop (fuel : Nat) (millis : Nat) (clk : Clock) (heap : List Nat)
    (console1 console2 : Option ConsoleInput) (cap : Option Capture) (rawHeap : List Nat)
    (capClk : Clock) (s : State) (w : WatchDog) : Outcome × WatchDog :=
  match coreLoop fuel millis clk heap console1 console2 s with
  | Outcome.returned s =>
    let s := match cap with
      | some c => if c.repeat_flag = false ∧ c.overflow = false then
          saveCapture c rawHeap capClk s else s
      | none => s
    (Outcome.returned s, watchDogRefresh w)
  | o => (o, w)

/-- The `delay` calls of `void blink()`, in milliseconds. -/
def blink : List Nat := [200, 100, 200]

/-- The time an action of the boot sequence takes in `delay` calls. -/
def Action.delayMs : Action → Nat
  | Action.blink => LolinIR.blink.sum
  | Action.delay ms => ms
  | _ => 0

/-- The time a sequence of actions spends in `delay` calls. -/
def totalDelay (trace : List Action) : Nat := (trace.map Action.delayMs).sum

/-! ## Concrete inputs used by the examples -/

/-- A device whose record was never written (erased flash reads `0xFF`), after power-on and
`wireConfig`. -/
def factoryState : State := wireConfig (powerOn (List.replicate EEPROM_SIZE 255) [])

/-- The configuration of the example: SSID `HomeNet` and password `secret` saved on a
factory-fresh device. -/
def homeNetConfig : CONFIG_TYPE :=
  (saveConfig [] (lit "HomeNet") (lit "secret") factoryState).config

/-- The scan of the example. -/
def homeNetScan : List Candidate :=
  [⟨lit "HomeNet", [2, 0, 0, 0, 0, 1], -80⟩, ⟨lit "HomeNet", [2, 0, 0, 0, 0, 2], -40⟩,
   ⟨lit "Other", [2, 0, 0, 0, 0, 3], -30⟩]

/-- The content of an array of `n` bytes that was cleared with `memset` and then written by
`toCharArray` from the string `s`. -/
def nulPadded (n : Nat) (s : List Nat) : List Nat := toCharArray s (List.replicate n 0) n

/-- The boot sequence from power-on over the stored bytes `e`, up to the access-point
fallback of `coreSetup`. -/
def bootNetwork (status : Bool → Nat → Bool) (scan : List Candidate) (e : List Nat)
    (files : FileSystem) : State :=
  coreSetupNetwork status scan (wireConfig (powerOn e files))

/-- A stored record of garbage: every byte, the three flags included, is `0x41`. -/
def garbageA : List Nat := List.replicate EEPROM_SIZE 65

/-- A second record of garbage with the same three flag bytes and other field bytes. -/
def garbageB : List Nat :=
  CONFIG_TYPE.toBytes ⟨65, List.replicate 32 66, 65, List.replicate 32 67, 65,
    List.replicate 64 68⟩ ++ List.replicate 125 69

/-- A Wi-Fi collaborator whose station never connects. -/
def neverConnected : Bool → Nat → Bool := fun _ _ => false

/-- The stored bytes of a device on which `HomeNet` / `secret` were saved. -/
def homeNetEeprom : List Nat :=
  (saveConfig [] (lit "HomeNet") (lit "secret") factoryState).eeprom

/-- An association that completes during the fourth `blink` of the wait. -/
def connectsAfterThree : Nat → Bool := fun t => decide (3 ≤ t)

/-- An association that never completes. -/
def neverAssociates : Nat → Bool := fun _ => false

/-- A device in access-point fallback with nothing to rebuild. -/
def idleApState : State := { factoryState with wifimode := WiFiMode.WIFI_AP }

/-- The files the rebuild of `setupTemplate` leaves when it writes `page`: the page goes to
`/setup.html.new`, `/setup.html` is removed, the new file is renamed. -/
def rebuiltFiles (fs : FileSystem) (page : List Nat) : FileSystem :=
  fsRename (fsRemove (fsWrite fs (setupPage ++ lit ".new") page) setupPage)
    (setupPage ++ lit ".new") setupPage

/-- A device in access-point mode whose template shows the time of the rebuild. -/
def timestampPageState : State :=
  { idleApState with files := [(setupTemplate, lit "Built at {timestamp}")] }

/-- A capture of three pulses: 560, 560 and 1680 microseconds, `rawlen` one more than the
number of pulses. -/
def capture560 : Capture :=
  { raw := [560, 560, 1680], rawlen := 4, repeat_flag := false, overflow := false }

/-- A capture of four pulses, a 9000 / 4500 microsecond header and two pulses of 560. -/
def captureNec : Capture :=
  { raw := [9000, 4500, 560, 560], rawlen := 5, repeat_flag := false, overflow := false }

/-- The same capture with a last pulse of 1680 microseconds. -/
def captureNecOne : Capture :=
  { raw := [9000, 4500, 560, 1680], rawlen := 5, repeat_flag := false, overflow := false }

/-- The console command `T`. -/
def commandT : ConsoleInput := { c := Char.toNat 'T', polls := [] }

/-- A device that fell back to access-point mode at boot although `HomeNet` is stored,
because the association did not complete. -/
def apFallbackState : State :=
  bootNetwork (WiFi_status neverAssociates) homeNetScan homeNetEeprom []

/-- The console command `L`. -/
def commandL : ConsoleInput := { c := Char.toNat 'L', polls := [] }

/-- The console command `S` followed by the characters `net`; the line is never completed
by a carriage return. -/
def commandSNoEnter : ConsoleInput :=
  { c := Char.toNat 'S', polls := [none, some 110, some 101, none, some 116] }

/-- The console command `W`. -/
def commandW : ConsoleInput := { c := Char.toNat 'W', polls := [] }

/-- A template that shows the hostname. -/
def hostnamePage : List Nat := lit "<h1>{hostname}</h1>"

/-- A device in access-point mode on which the hostname `{hostname}` has been saved. -/
def loopingState : State :=
  saveConfig (lit "{hostname}") [] [] { idleApState with files := [(setupTemplate, hostnamePage)] }

/-! ## Theorems -/


theorem toShort_of_range (v : Int) (h1 : SHRT_MIN ≤ v) (h2 : v ≤ SHRT_MAX) : toShort v = v := by
  unfold toShort; unfold SHRT_MIN at h1; unfold SHRT_MAX at h2; omega

theorem cstr_idem (m : List Nat) : cstr (cstr m) = cstr m := by
  unfold cstr
  induction m with
  | nil => rfl
  | cons a l ih =>
    by_cases h : (a != 0) = true
    · simp [List.takeWhile_cons, h, ih]
    · simp [List.takeWhile_cons, h]

theorem String_equals_cstr (a m : List Nat) :
    String_equals (cstr a) m = true ↔ cstr a = cstr m := by
  unfold String_equals
  by_cases h : (cstr a).length = 0
  · have h0 : cstr a = [] := List.length_eq_zero.mp h
    rw [if_pos h, h0]
    simp only [decide_eq_true_eq]
    exact eq_comm
  · simp [h, cstr_idem]

/-- The guard of the scan loop, as a proposition about the entry alone. -/
theorem scanStep_eq (config : CONFIG_TYPE) (b : Best) (c : Candidate)
    (hflag : config.ssid_flag = CFG_SET) (hr : SHRT_MIN ≤ c.rssi ∧ c.rssi ≤ SHRT_MAX) :
    scanStep config b c =
      if WiFi_SSID c = config.ssidStr ∧ c.rssi > b.bestRssi then
        { bestRssi := c.rssi, bestBssid := c.bssid } else b := by
  unfold scanStep
  have he : (String_equals (WiFi_SSID c) config.ssidMem = true) ↔
      WiFi_SSID c = config.ssidStr := by
    unfold WiFi_SSID CONFIG_TYPE.ssidStr CONFIG_TYPE.ssidMem
    exact String_equals_cstr _ _
  simp only [hflag, true_and, he, toShort_of_range c.rssi hr.1 hr.2]

theorem selectBest_fold (config : CONFIG_TYPE) (hflag : config.ssid_flag = CFG_SET)
    (scan : List Candidate) :
    ∀ b0 : Best, (∀ c ∈ scan, SHRT_MIN ≤ c.rssi ∧ c.rssi ≤ SHRT_MAX) →
      (scan.foldl (scanStep config) b0 = b0 ∧
        ∀ c ∈ scan, WiFi_SSID c = config.ssidStr → c.rssi ≤ b0.bestRssi) ∨
      (∃ pre c post, scan = pre ++ c :: post ∧ WiFi_SSID c = config.ssidStr ∧
        scan.foldl (scanStep config) b0 = { bestRssi := c.rssi, bestBssid := c.bssid } ∧
        b0.bestRssi < c.rssi ∧
        (∀ x ∈ pre, WiFi_SSID x = config.ssidStr → x.rssi < c.rssi) ∧
        (∀ x ∈ post, WiFi_SSID x = config.ssidStr → x.rssi ≤ c.rssi)) := by
  induction scan with
  | nil => intro b0 _; left; simp
  | cons x l ih =>
    intro b0 hr
    have hx := hr x (List.mem_cons_self _ _)
    have hl : ∀ c ∈ l, SHRT_MIN ≤ c.rssi ∧ c.rssi ≤ SHRT_MAX :=
      fun c hc => hr c (List.mem_cons_of_mem _ hc)
    rw [List.foldl_cons, scanStep_eq config b0 x hflag hx]
    by_cases hm : WiFi_SSID x = config.ssidStr ∧ x.rssi > b0.bestRssi
    · rw [if_pos hm]
      right
      rcases ih { bestRssi := x.rssi, bestBssid := x.bssid } hl with ⟨he, hall⟩ | ⟨pre, c, post, hs, hc, he, hlt, hpre, hpost⟩
      · exact ⟨[], x, l, rfl, hm.1, he, hm.2, by simp, hall⟩
      · refine ⟨x :: pre, c, post, by simp [hs], hc, he, lt_trans hm.2 hlt, ?_, hpost⟩
        intro y hy hy'
        rcases List.mem_cons.mp hy with rfl | hy
        · exact hlt
        · exact hpre y hy hy'
    · rw [if_neg hm]
      rcases ih b0 hl with ⟨he, hall⟩ | ⟨pre, c, post, hs, hc, he, hlt, hpre, hpost⟩
      · left
        refine ⟨he, ?_⟩
        intro y hy hy'
        rcases List.mem_cons.mp hy with rfl | hy
        · by_contra hcon
          exact hm ⟨hy', by omega⟩
        · exact hall y hy hy'
      · right
        refine ⟨x :: pre, c, post, by simp [hs], hc, he, hlt, ?_, hpost⟩
        intro y hy hy'
        rcases List.mem_cons.mp hy with rfl | hy
        · by_contra hcon
          exact hm ⟨hy', by omega⟩
        · exact hpre y hy hy'

/-- C1 (amended): selection of the strongest matching candidate, first on ties. -/
theorem selectBest_strongest_first (config : CONFIG_TYPE) (scan : List Candidate)
    (hflag : config.ssid_flag = CFG_SET)
    (hrange : ∀ c ∈ scan, SHRT_MIN < c.rssi ∧ c.rssi ≤ SHRT_MAX)
    (hmatch : ∃ c ∈ scan, WiFi_SSID c = config.ssidStr) :
    ∃ pre c post, scan = pre ++ c :: post ∧ WiFi_SSID c = config.ssidStr ∧
      (selectBest config scan).bestRssi = c.rssi ∧
      (selectBest config scan).bestBssid = c.bssid ∧
      (∀ x ∈ pre, WiFi_SSID x = config.ssidStr → x.rssi < c.rssi) ∧
      (∀ x ∈ post, WiFi_SSID x = config.ssidStr → x.rssi ≤ c.rssi) := by
  have hr : ∀ c ∈ scan, SHRT_MIN ≤ c.rssi ∧ c.rssi ≤ SHRT_MAX :=
    fun c hc => ⟨le_of_lt (hrange c hc).1, (hrange c hc).2⟩
  rcases selectBest_fold config hflag scan Best.init hr with ⟨_, hall⟩ | ⟨pre, c, post, hs, hc, he, _, hpre, hpost⟩
  · obtain ⟨c, hc, hm⟩ := hmatch
    have h1 := hall c hc hm
    have h2 := (hrange c hc).1
    simp only [Best.init] at h1
    omega
  · refine ⟨pre, c, post, hs, hc, ?_, ?_, hpre, hpost⟩
    · unfold selectBest; rw [he]
    · unfold selectBest; rw [he]

theorem selectBest_strongest_first_witness :
    (selectBest homeNetConfig homeNetScan).bestRssi = -40 ∧
    ∃ pre c post, homeNetScan = pre ++ c :: post ∧ WiFi_SSID c = homeNetConfig.ssidStr ∧
      (selectBest homeNetConfig homeNetScan).bestRssi = c.rssi ∧
      (selectBest homeNetConfig homeNetScan).bestBssid = c.bssid ∧
      (∀ x ∈ pre, WiFi_SSID x = homeNetConfig.ssidStr → x.rssi < c.rssi) ∧
      (∀ x ∈ post, WiFi_SSID x = homeNetConfig.ssidStr → x.rssi ≤ c.rssi) :=
  ⟨by decide, selectBest_strongest_first homeNetConfig homeNetScan (by decide) (by decide) (by decide)⟩

theorem selectBest_sentinel_counterexample :
    homeNetConfig.ssid_flag = CFG_SET ∧
    (∃ c ∈ [(⟨lit "HomeNet", [2, 0, 0, 0, 0, 1], -32768⟩ : Candidate)],
      WiFi_SSID c = homeNetConfig.ssidStr) ∧
    ¬ ∃ c ∈ [(⟨lit "HomeNet", [2, 0, 0, 0, 0, 1], -32768⟩ : Candidate)],
      (selectBest homeNetConfig [⟨lit "HomeNet", [2, 0, 0, 0, 0, 1], -32768⟩]).bestRssi = c.rssi ∧
      (selectBest homeNetConfig [⟨lit "HomeNet", [2, 0, 0, 0, 0, 1], -32768⟩]).bestBssid = c.bssid := by
  decide

theorem mem_cstr_ne_zero (m : List Nat) (x : Nat) (hx : x ∈ cstr m) : x ≠ 0 := by
  unfold cstr at hx
  have := List.mem_takeWhile_imp hx
  simpa using this

theorem cstr_append_nul (a r : List Nat) (h : ∀ x ∈ a, x ≠ 0) : cstr (a ++ 0 :: r) = a := by
  unfold cstr
  induction a with
  | nil => simp
  | cons x l ih =>
    have hx : x ≠ 0 := h x (List.mem_cons_self _ _)
    simp [List.takeWhile_cons, hx, ih (fun y hy => h y (List.mem_cons_of_mem _ hy))]

theorem cstr_of_no_nul (s : List Nat) (h : 0 ∉ s) : cstr s = s := by
  unfold cstr
  induction s with
  | nil => rfl
  | cons x l ih =>
    have hx : x ≠ 0 := fun h0 => h (h0 ▸ List.mem_cons_self _ _)
    have hl : 0 ∉ l := fun h0 => h (List.mem_cons_of_mem _ h0)
    simp [List.takeWhile_cons, hx, ih hl]

theorem cstr_length_le (s : List Nat) : (cstr s).length ≤ s.length := by
  unfold cstr
  exact (List.takeWhile_sublist _).length_le

theorem set_zero_in_padding (a : List Nat) (m k : Nat) (h1 : a.length ≤ k) :
    (a ++ List.replicate m 0).set k 0 = a ++ List.replicate m 0 := by
  apply List.ext_getElem
  · simp
  · intro i hi1 hi2
    rw [List.getElem_set]
    split
    · next hk =>
      subst hk
      rw [List.getElem_append_right h1]
      simp
    · rfl

/-- What a zero-filled array of `n` bytes holds after `toCharArray` of a non-empty
string: its first `n - 1` characters up to a NUL, then NUL bytes. -/
theorem toCharArray_memset (s buf : List Nat) (n : Nat) (hn : 0 < n) (hb : buf.length = n)
    (hs : 0 < s.length) :
    toCharArray s (memset buf 0 n) n =
      (cstr s).take (n - 1) ++ List.replicate (n - ((cstr s).take (n - 1)).length) 0 := by
  unfold toCharArray memset strncpy
  have hd : buf.drop n = [] := List.drop_eq_nil_of_le (by omega)
  have hk : (cstr s).take (min (n - 1) s.length) = (cstr s).take (n - 1) := by
    have := cstr_length_le s
    by_cases h : n - 1 ≤ s.length
    · rw [min_eq_left h]
    · rw [min_eq_right (by omega), List.take_of_length_le (by omega),
        List.take_of_length_le (by omega)]
  have hlen : ((cstr s).take (n - 1)).length ≤ min (n - 1) s.length := by
    have := cstr_length_le s
    simp only [List.length_take]
    omega
  rw [if_neg (by omega), if_neg (by omega), hd, hk, List.append_nil, List.drop_replicate,
    List.append_assoc, List.append_replicate_replicate]
  rw [set_zero_in_padding _ _ _ hlen]
  congr 2
  omega

theorem getD_append_cons (a : List Nat) (x : Nat) (r : List Nat) (k : Nat)
    (h : a.length = k) : (a ++ x :: r).getD k 0 = x := by
  subst h
  rw [List.getD_eq_getElem?_getD, List.getElem?_append_right (le_refl _)]
  simp

theorem drop_append_cons (a : List Nat) (x : Nat) (r : List Nat) (k : Nat)
    (h : a.length = k) : (a ++ x :: r).drop (k + 1) = r := by
  subst h
  rw [← List.drop_drop, List.drop_left]
  rfl

theorem ofBytes_toBytes (c : CONFIG_TYPE) (h : c.WF) (r : List Nat) :
    CONFIG_TYPE.ofBytes (c.toBytes ++ r) = c := by
  obtain ⟨f1, hn, f2, ss, f3, pw⟩ := c
  obtain ⟨h1, h2, h3⟩ := h
  simp only [HOSTNAME_LEN, WIFI_SSID_LEN, WIFI_PASSWD_LEN] at h1 h2 h3
  unfold CONFIG_TYPE.toBytes CONFIG_TYPE.ofBytes
  simp only [HOSTNAME_LEN, WIFI_SSID_LEN, WIFI_PASSWD_LEN]
  have e1 : (f1 :: hn ++ f2 :: ss ++ f3 :: pw ++ r) = (f1 :: hn) ++ f2 :: (ss ++ f3 :: (pw ++ r)) := by
    simp
  have e2 : (f1 :: hn ++ f2 :: ss ++ f3 :: pw ++ r) = (f1 :: hn ++ f2 :: ss) ++ f3 :: (pw ++ r) := by
    simp
  have l1 : (f1 :: hn).length = 33 := by simp [h1]
  have l2 : (f1 :: hn ++ f2 :: ss).length = 66 := by simp [h1, h2]
  congr 1
  · rw [e1]; simp [List.take_left' h1]
  · rw [e1]; exact getD_append_cons _ _ _ _ l1
  · rw [e1, drop_append_cons _ _ _ _ l1]; exact List.take_left' h2
  · rw [e2]; exact getD_append_cons _ _ _ _ l2
  · rw [e2, drop_append_cons _ _ _ _ l2]; exact List.take_left' h3

theorem EEPROM_get_put (e : List Nat) (c : CONFIG_TYPE) (h : c.WF) :
    EEPROM_get (EEPROM_put e c) = c := by
  unfold EEPROM_get EEPROM_put
  have hl : c.toBytes.length = CONFIG_SIZE := by
    obtain ⟨h1, h2, h3⟩ := h
    simp only [HOSTNAME_LEN, WIFI_SSID_LEN, WIFI_PASSWD_LEN] at h1 h2 h3
    simp [CONFIG_TYPE.toBytes, CONFIG_SIZE, h1, h2, h3]
  rw [List.take_left' hl]
  have := ofBytes_toBytes c h []
  simpa using this

theorem cstr_take_pad (a : List Nat) (m : Nat) (r : List Nat) (hm : 0 < m) :
    cstr ((cstr a).take (m - 1) ++ List.replicate (m - ((cstr a).take (m - 1)).length) 0 ++ r)
      = (cstr a).take (m - 1) := by
  have hl : ((cstr a).take (m - 1)).length ≤ m - 1 := by simp
  obtain ⟨k, hk⟩ : ∃ k, m - ((cstr a).take (m - 1)).length = k + 1 :=
    ⟨m - ((cstr a).take (m - 1)).length - 1, by omega⟩
  rw [hk, List.replicate_succ, List.append_assoc, List.cons_append]
  exact cstr_append_nul _ _ (fun x hx => mem_cstr_ne_zero a x (List.mem_of_mem_take hx))

theorem memset_full (buf : List Nat) (n : Nat) (h : buf.length = n) :
    memset buf 0 n = List.replicate n 0 := by
  unfold memset
  rw [List.drop_eq_nil_of_le (by omega), List.append_nil]

theorem nulPadded_eq (n : Nat) (s : List Nat) (hn : 0 < n) (hs : 0 < s.length) :
    nulPadded n s =
      (cstr s).take (n - 1) ++ List.replicate (n - ((cstr s).take (n - 1)).length) 0 := by
  have h := toCharArray_memset s (List.replicate n 0) n hn (by simp) hs
  rw [memset_full _ _ (by simp)] at h
  exact h

theorem nulPadded_length (n : Nat) (s : List Nat) (hn : 0 < n) (hs : 0 < s.length) :
    (nulPadded n s).length = n := by
  rw [nulPadded_eq n s hn hs]
  simp only [List.length_append, List.length_take, List.length_replicate]
  omega

theorem cstr_nulPadded (n : Nat) (s r : List Nat) (hn : 0 < n) (hs : 0 < s.length) :
    cstr (nulPadded n s ++ r) = (cstr s).take (n - 1) := by
  rw [nulPadded_eq n s hn hs]
  exact cstr_take_pad s n r hn

theorem DEFAULT_HOSTNAME_length : DEFAULT_HOSTNAME.length = 16 := by decide

/-- The record `saveConfig` leaves in `config`, in closed form. -/
theorem saveConfig_config (h ss p : List Nat) (s : State) (hw : s.config.WF) :
    (saveConfig h ss p s).config =
      { hostname_flag := if h.length > 0 then CFG_SET else CFG_NOT_SET
        hostname := nulPadded HOSTNAME_LEN (if h.length > 0 then h else DEFAULT_HOSTNAME)
        ssid_flag := if ss.length > 0 then CFG_SET else CFG_NOT_SET
        ssid := if ss.length > 0 then nulPadded WIFI_SSID_LEN ss
          else List.replicate WIFI_SSID_LEN 0
        ssid_pwd_flag := if p.length > 0 then CFG_SET else CFG_NOT_SET
        ssid_pwd := if p.length > 0 then nulPadded WIFI_PASSWD_LEN p
          else List.replicate WIFI_PASSWD_LEN 0 } := by
  obtain ⟨h1, h2, h3⟩ := hw
  unfold saveConfig
  simp only [CFG_NOT_SET, nulPadded]
  by_cases a : h.length > 0 <;> by_cases b : ss.length > 0 <;> by_cases c : p.length > 0 <;>
    simp [a, b, c, memset_full _ _ h1, memset_full _ _ h2, memset_full _ _ h3]

theorem saveConfig_WF (h ss p : List Nat) (s : State) (hw : s.config.WF) :
    (saveConfig h ss p s).config.WF := by
  rw [saveConfig_config h ss p s hw]
  refine ⟨?_, ?_, ?_⟩
  · by_cases a : h.length > 0
    · simp only [a, if_true]; exact nulPadded_length _ _ (by decide) a
    · simp only [a, if_false]; exact nulPadded_length _ _ (by decide) (by decide)
  · by_cases b : ss.length > 0
    · simp only [b, if_true]; exact nulPadded_length _ _ (by decide) b
    · simp only [b, if_false]; simp
  · by_cases c : p.length > 0
    · simp only [c, if_true]; exact nulPadded_length _ _ (by decide) c
    · simp only [c, if_false]; simp

theorem saveConfig_eeprom (h ss p : List Nat) (s : State) :
    (saveConfig h ss p s).eeprom = EEPROM_put s.eeprom (saveConfig h ss p s).config := rfl

/-- Loading directly after a save reads back the record that was saved. -/
theorem EEPROM_get_saveConfig (h ss p : List Nat) (s : State) (hw : s.config.WF) :
    EEPROM_get (saveConfig h ss p s).eeprom = (saveConfig h ss p s).config := by
  rw [saveConfig_eeprom]
  exact EEPROM_get_put _ _ (saveConfig_WF h ss p s hw)

/-- With the three flags set, `wireConfig` leaves the loaded record as it is. -/
theorem wireConfig_config_of_set (s : State)
    (h1 : (EEPROM_get s.eeprom).hostname_flag = CFG_SET)
    (h2 : (EEPROM_get s.eeprom).ssid_flag = CFG_SET)
    (h3 : (EEPROM_get s.eeprom).ssid_pwd_flag = CFG_SET) :
    (wireConfig s).config = EEPROM_get s.eeprom := by
  unfold wireConfig
  simp [h1, h2, h3]

theorem take_cstr_of_no_nul (s : List Nat) (k : Nat) (h : 0 ∉ s.take k) :
    (cstr s).take k = s.take k := by
  unfold cstr
  induction s generalizing k with
  | nil => simp
  | cons x l ih =>
    cases k with
    | zero => simp
    | succ k =>
      have hx : x ≠ 0 := fun h0 => h (by simp [h0])
      have hl : 0 ∉ l.take k := fun h0 => h (by simp [h0])
      simp [List.takeWhile_cons, hx, ih k hl]

/-- C2 (amended): a save followed by a load gives back a non-empty, NUL-free hostname,
SSID and password of at most 31, 31 and 63 bytes, with the three flags set. -/
theorem save_load_roundtrip (h ss p : List Nat) (s : State) (hw : s.config.WF)
    (hh : 0 < h.length ∧ h.length ≤ 31 ∧ 0 ∉ h)
    (hs : 0 < ss.length ∧ ss.length ≤ 31 ∧ 0 ∉ ss)
    (hp : 0 < p.length ∧ p.length ≤ 63 ∧ 0 ∉ p) :
    (wireConfig (saveConfig h ss p s)).config.hostname_flag = CFG_SET ∧
    (wireConfig (saveConfig h ss p s)).config.ssid_flag = CFG_SET ∧
    (wireConfig (saveConfig h ss p s)).config.ssid_pwd_flag = CFG_SET ∧
    (wireConfig (saveConfig h ss p s)).config.hostnameStr = h ∧
    (wireConfig (saveConfig h ss p s)).config.ssidStr = ss ∧
    (wireConfig (saveConfig h ss p s)).config.ssid_pwdStr = p := by
  have hget := EEPROM_get_saveConfig h ss p s hw
  have hcfg := saveConfig_config h ss p s hw
  simp only [hh.1, hs.1, hp.1, if_true] at hcfg
  have hload : (wireConfig (saveConfig h ss p s)).config = (saveConfig h ss p s).config := by
    rw [wireConfig_config_of_set _ (by rw [hget, hcfg]) (by rw [hget, hcfg])
      (by rw [hget, hcfg]), hget]
  rw [hload, hcfg]
  refine ⟨rfl, rfl, rfl, ?_, ?_, ?_⟩
  · unfold CONFIG_TYPE.hostnameStr
    simp only [List.append_assoc]
    rw [cstr_nulPadded _ _ _ (by decide) hh.1, cstr_of_no_nul h hh.2.2]
    exact List.take_of_length_le (by simp only [HOSTNAME_LEN]; omega)
  · unfold CONFIG_TYPE.ssidStr
    rw [cstr_nulPadded _ _ _ (by decide) hs.1, cstr_of_no_nul ss hs.2.2]
    exact List.take_of_length_le (by simp only [WIFI_SSID_LEN]; omega)
  · show cstr (nulPadded WIFI_PASSWD_LEN p) = p
    have := cstr_nulPadded WIFI_PASSWD_LEN p [] (by decide) hp.1
    rw [List.append_nil] at this
    rw [this, cstr_of_no_nul p hp.2.2]
    exact List.take_of_length_le (by simp only [WIFI_PASSWD_LEN]; omega)

theorem save_load_roundtrip_witness :
    (wireConfig (saveConfig (lit "blaster") (lit "HomeNet") (lit "secret")
        factoryState)).config.hostname_flag = CFG_SET ∧
    (wireConfig (saveConfig (lit "blaster") (lit "HomeNet") (lit "secret")
        factoryState)).config.ssid_flag = CFG_SET ∧
    (wireConfig (saveConfig (lit "blaster") (lit "HomeNet") (lit "secret")
        factoryState)).config.ssid_pwd_flag = CFG_SET ∧
    (wireConfig (saveConfig (lit "blaster") (lit "HomeNet") (lit "secret")
        factoryState)).config.hostnameStr = lit "blaster" ∧
    (wireConfig (saveConfig (lit "blaster") (lit "HomeNet") (lit "secret")
        factoryState)).config.ssidStr = lit "HomeNet" ∧
    (wireConfig (saveConfig (lit "blaster") (lit "HomeNet") (lit "secret")
        factoryState)).config.ssid_pwdStr = lit "secret" :=
  save_load_roundtrip (lit "blaster") (lit "HomeNet") (lit "secret") factoryState
    (by decide) (by decide) (by decide) (by decide)

/-- A hostname of exactly 32 bytes does not survive a save and a load: 31 bytes come
back. -/
theorem save_load_roundtrip_counterexample :
    (List.replicate 32 97).length ≤ 32 ∧ 0 ∉ List.replicate 32 97 ∧
    (wireConfig (saveConfig (List.replicate 32 97) (lit "HomeNet") (lit "secret")
        factoryState)).config.hostnameStr ≠ List.replicate 32 97 ∧
    (wireConfig (saveConfig (List.replicate 32 97) (lit "HomeNet") (lit "secret")
        factoryState)).config.hostnameStr = List.replicate 31 97 := by
  decide

/-- The record `wireConfig` leaves in `config`, in terms of the stored record. -/
theorem wireConfig_config (s : State) :
    (wireConfig s).config =
      { hostname_flag := (EEPROM_get s.eeprom).hostname_flag
        hostname := if (EEPROM_get s.eeprom).hostname_flag ≠ CFG_SET then
            strcpy (EEPROM_get s.eeprom).hostname DEFAULT_HOSTNAME
          else (EEPROM_get s.eeprom).hostname
        ssid_flag := (EEPROM_get s.eeprom).ssid_flag
        ssid := if (EEPROM_get s.eeprom).ssid_flag = CFG_SET then (EEPROM_get s.eeprom).ssid
          else memset (EEPROM_get s.eeprom).ssid CFG_NOT_SET WIFI_SSID_LEN
        ssid_pwd_flag := (EEPROM_get s.eeprom).ssid_pwd_flag
        ssid_pwd := if (EEPROM_get s.eeprom).ssid_pwd_flag ≠ CFG_SET then
            memset (EEPROM_get s.eeprom).ssid_pwd CFG_NOT_SET WIFI_PASSWD_LEN
          else (EEPROM_get s.eeprom).ssid_pwd } := by
  unfold wireConfig
  generalize EEPROM_get s.eeprom = c
  obtain ⟨f1, hn, f2, ss, f3, pw⟩ := c
  by_cases h1 : f1 = CFG_SET <;> by_cases h2 : f2 = CFG_SET <;>
    by_cases h3 : f3 = CFG_SET <;> simp [h1, h2, h3]

theorem wireConfig_wifimode_of_not_set (s : State)
    (h : (EEPROM_get s.eeprom).ssid_flag ≠ CFG_SET) :
    (wireConfig s).wifimode = WiFiMode.WIFI_AP := by
  unfold wireConfig
  by_cases h1 : (EEPROM_get s.eeprom).hostname_flag = CFG_SET <;> simp [h1, h]

theorem cstr_DEFAULT_HOSTNAME : cstr DEFAULT_HOSTNAME = DEFAULT_HOSTNAME := by decide

theorem cstr_strcpy (buf src r : List Nat) : cstr (strcpy buf src ++ r) = cstr src := by
  unfold strcpy
  rw [List.append_assoc, List.cons_append]
  exact cstr_append_nul _ _ (fun x hx => mem_cstr_ne_zero src x hx)

theorem strcpy_length (buf src : List Nat) (h : (cstr src).length < buf.length) :
    (strcpy buf src).length = buf.length := by
  unfold strcpy
  simp only [List.length_append, List.length_cons, List.length_drop]
  omega

theorem EEPROM_get_ssid_length (e : List Nat) : (EEPROM_get e).ssid.length ≤ WIFI_SSID_LEN := by
  unfold EEPROM_get CONFIG_TYPE.ofBytes
  simp only [List.length_take]
  omega

theorem EEPROM_get_ssid_pwd_length (e : List Nat) :
    (EEPROM_get e).ssid_pwd.length ≤ WIFI_PASSWD_LEN := by
  unfold EEPROM_get CONFIG_TYPE.ofBytes
  simp only [List.length_take]
  omega

theorem memset_of_le (buf : List Nat) (n : Nat) (h : buf.length ≤ n) :
    memset buf 0 n = List.replicate n 0 := by
  unfold memset
  rw [List.drop_eq_nil_of_le h, List.append_nil]

/-- A field whose flag is not `CFG_SET` after `wireConfig`: the hostname string is the
default, the SSID and password arrays are cleared, the mode is access point. -/
theorem wireConfig_not_set (s : State) :
    ((EEPROM_get s.eeprom).hostname_flag ≠ CFG_SET →
      (wireConfig s).config.hostnameStr = DEFAULT_HOSTNAME) ∧
    ((EEPROM_get s.eeprom).ssid_flag ≠ CFG_SET →
      (wireConfig s).config.ssid = List.replicate WIFI_SSID_LEN 0 ∧
      (wireConfig s).wifimode = WiFiMode.WIFI_AP) ∧
    ((EEPROM_get s.eeprom).ssid_pwd_flag ≠ CFG_SET →
      (wireConfig s).config.ssid_pwd = List.replicate WIFI_PASSWD_LEN 0) := by
  refine ⟨?_, ?_, ?_⟩
  · intro h
    rw [wireConfig_config]
    unfold CONFIG_TYPE.hostnameStr
    simp only [h, ne_eq, not_false_eq_true, if_true, List.append_assoc]
    rw [cstr_strcpy, cstr_DEFAULT_HOSTNAME]
  · intro h
    refine ⟨?_, wireConfig_wifimode_of_not_set s h⟩
    rw [wireConfig_config]
    simp only [h, if_false]
    exact memset_of_le _ _ (EEPROM_get_ssid_length _)
  · intro h
    rw [wireConfig_config]
    simp only [h, ne_eq, not_false_eq_true, if_true]
    exact memset_of_le _ _ (EEPROM_get_ssid_pwd_length _)

/-- The record `wipeConfig` leaves in `config`. -/
theorem wipeConfig_config (s : State) :
    (wipeConfig s).config =
      { hostname_flag := CFG_NOT_SET
        hostname := strcpy s.config.hostname DEFAULT_HOSTNAME
        ssid_flag := CFG_NOT_SET
        ssid := memset s.config.ssid CFG_NOT_SET WIFI_SSID_LEN
        ssid_pwd_flag := CFG_NOT_SET
        ssid_pwd := memset s.config.ssid_pwd CFG_NOT_SET WIFI_PASSWD_LEN } := rfl

theorem wipeConfig_WF (s : State) (hw : s.config.WF) : (wipeConfig s).config.WF := by
  obtain ⟨h1, h2, h3⟩ := hw
  rw [wipeConfig_config]
  refine ⟨?_, ?_, ?_⟩
  · show (strcpy s.config.hostname DEFAULT_HOSTNAME).length = HOSTNAME_LEN
    rw [strcpy_length _ _ (by rw [cstr_DEFAULT_HOSTNAME, h1]; decide), h1]
  · show (memset s.config.ssid CFG_NOT_SET WIFI_SSID_LEN).length = WIFI_SSID_LEN
    rw [CFG_NOT_SET, memset_full _ _ h2]; simp
  · show (memset s.config.ssid_pwd CFG_NOT_SET WIFI_PASSWD_LEN).length = WIFI_PASSWD_LEN
    rw [CFG_NOT_SET, memset_full _ _ h3]; simp

theorem EEPROM_get_wipeConfig (s : State) (hw : s.config.WF) :
    EEPROM_get (wipeConfig s).eeprom = (wipeConfig s).config :=
  EEPROM_get_put _ _ (wipeConfig_WF s hw)

/-- C3: saving three empty strings and loading gives the wiped configuration. -/
theorem save_empty_equals_wipe (s : State) (hw : s.config.WF) :
    ((wireConfig (saveConfig [] [] [] s)).config.hostname_flag = CFG_NOT_SET ∧
     (wireConfig (saveConfig [] [] [] s)).config.ssid_flag = CFG_NOT_SET ∧
     (wireConfig (saveConfig [] [] [] s)).config.ssid_pwd_flag = CFG_NOT_SET ∧
     (wireConfig (saveConfig [] [] [] s)).config.hostnameStr = DEFAULT_HOSTNAME ∧
     (wireConfig (saveConfig [] [] [] s)).config.ssid = List.replicate WIFI_SSID_LEN CFG_NOT_SET ∧
     (wireConfig (saveConfig [] [] [] s)).config.ssid_pwd =
        List.replicate WIFI_PASSWD_LEN CFG_NOT_SET) ∧
    ((wireConfig (wipeConfig s)).config.hostname_flag =
        (wireConfig (saveConfig [] [] [] s)).config.hostname_flag ∧
     (wireConfig (wipeConfig s)).config.ssid_flag =
        (wireConfig (saveConfig [] [] [] s)).config.ssid_flag ∧
     (wireConfig (wipeConfig s)).config.ssid_pwd_flag =
        (wireConfig (saveConfig [] [] [] s)).config.ssid_pwd_flag ∧
     (wireConfig (wipeConfig s)).config.hostnameStr =
        (wireConfig (saveConfig [] [] [] s)).config.hostnameStr ∧
     (wireConfig (wipeConfig s)).config.ssid = (wireConfig (saveConfig [] [] [] s)).config.ssid ∧
     (wireConfig (wipeConfig s)).config.ssid_pwd =
        (wireConfig (saveConfig [] [] [] s)).config.ssid_pwd) := by
  have hs := EEPROM_get_saveConfig [] [] [] s hw
  have hsc := saveConfig_config [] [] [] s hw
  have hwp := EEPROM_get_wipeConfig s hw
  have hwc := wipeConfig_config s
  have f1 : (EEPROM_get (saveConfig [] [] [] s).eeprom).hostname_flag ≠ CFG_SET := by
    rw [hs, hsc]; decide
  have f2 : (EEPROM_get (saveConfig [] [] [] s).eeprom).ssid_flag ≠ CFG_SET := by
    rw [hs, hsc]; decide
  have f3 : (EEPROM_get (saveConfig [] [] [] s).eeprom).ssid_pwd_flag ≠ CFG_SET := by
    rw [hs, hsc]; decide
  have g1 : (EEPROM_get (wipeConfig s).eeprom).hostname_flag ≠ CFG_SET := by
    rw [hwp, hwc]; exact (by decide : CFG_NOT_SET ≠ CFG_SET)
  have g2 : (EEPROM_get (wipeConfig s).eeprom).ssid_flag ≠ CFG_SET := by
    rw [hwp, hwc]; exact (by decide : CFG_NOT_SET ≠ CFG_SET)
  have g3 : (EEPROM_get (wipeConfig s).eeprom).ssid_pwd_flag ≠ CFG_SET := by
    rw [hwp, hwc]; exact (by decide : CFG_NOT_SET ≠ CFG_SET)
  obtain ⟨a1, a2, a3⟩ := wireConfig_not_set (saveConfig [] [] [] s)
  obtain ⟨b1, b2, b3⟩ := wireConfig_not_set (wipeConfig s)
  have sf : (wireConfig (saveConfig [] [] [] s)).config.hostname_flag = CFG_NOT_SET ∧
      (wireConfig (saveConfig [] [] [] s)).config.ssid_flag = CFG_NOT_SET ∧
      (wireConfig (saveConfig [] [] [] s)).config.ssid_pwd_flag = CFG_NOT_SET := by
    rw [wireConfig_config, hs, hsc]; exact ⟨rfl, rfl, rfl⟩
  have wf : (wireConfig (wipeConfig s)).config.hostname_flag = CFG_NOT_SET ∧
      (wireConfig (wipeConfig s)).config.ssid_flag = CFG_NOT_SET ∧
      (wireConfig (wipeConfig s)).config.ssid_pwd_flag = CFG_NOT_SET := by
    rw [wireConfig_config, hwp, hwc]; exact ⟨rfl, rfl, rfl⟩
  refine ⟨⟨sf.1, sf.2.1, sf.2.2, a1 f1, (a2 f2).1, a3 f3⟩, ?_⟩
  refine ⟨?_, ?_, ?_, ?_, ?_, ?_⟩
  · rw [sf.1, wf.1]
  · rw [sf.2.1, wf.2.1]
  · rw [sf.2.2, wf.2.2]
  · rw [a1 f1, b1 g1]
  · rw [(a2 f2).1, (b2 g2).1]
  · rw [a3 f3, b3 g3]

theorem save_empty_equals_wipe_witness :
    (wireConfig (saveConfig [] [] []
      (saveConfig (lit "blaster") (lit "HomeNet") (lit "secret") factoryState))).config.hostnameStr
      = DEFAULT_HOSTNAME ∧
    (wireConfig (wipeConfig
      (saveConfig (lit "blaster") (lit "HomeNet") (lit "secret") factoryState))).config.ssid
      = (wireConfig (saveConfig [] [] []
      (saveConfig (lit "blaster") (lit "HomeNet") (lit "secret") factoryState))).config.ssid :=
  ⟨(save_empty_equals_wipe
      (saveConfig (lit "blaster") (lit "HomeNet") (lit "secret") factoryState)
      (by decide)).1.2.2.2.1,
   (save_empty_equals_wipe
      (saveConfig (lit "blaster") (lit "HomeNet") (lit "secret") factoryState)
      (by decide)).2.2.2.2.2.1⟩

/-- C4 (amended): an input longer than the array can hold is cut to one byte less than the
array size (31, 31 and 63 bytes), the flag is set, and the record depends on the inputs
alone. -/
theorem saveConfig_truncates (h ss p : List Nat) (s : State) (hw : s.config.WF) :
    (31 < h.length →
      (saveConfig h ss p s).config.hostname_flag = CFG_SET ∧
      (saveConfig h ss p s).config.hostnameStr = (cstr h).take 31 ∧
      (0 ∉ h.take 31 → (saveConfig h ss p s).config.hostnameStr = h.take 31 ∧
        (saveConfig h ss p s).config.hostnameStr.length = 31)) ∧
    (31 < ss.length →
      (saveConfig h ss p s).config.ssid_flag = CFG_SET ∧
      (saveConfig h ss p s).config.ssidStr = (cstr ss).take 31 ∧
      (0 ∉ ss.take 31 → (saveConfig h ss p s).config.ssidStr = ss.take 31 ∧
        (saveConfig h ss p s).config.ssidStr.length = 31)) ∧
    (63 < p.length →
      (saveConfig h ss p s).config.ssid_pwd_flag = CFG_SET ∧
      (saveConfig h ss p s).config.ssid_pwdStr = (cstr p).take 63 ∧
      (0 ∉ p.take 63 → (saveConfig h ss p s).config.ssid_pwdStr = p.take 63 ∧
        (saveConfig h ss p s).config.ssid_pwdStr.length = 63)) ∧
    EEPROM_get (saveConfig h ss p s).eeprom = (saveConfig h ss p s).config ∧
    (∀ s2 : State, s2.config.WF →
      (saveConfig h ss p s2).config = (saveConfig h ss p s).config) := by
  have hcfg := saveConfig_config h ss p s hw
  refine ⟨?_, ?_, ?_, EEPROM_get_saveConfig h ss p s hw, ?_⟩
  · intro hl
    have hpos : 0 < h.length := by omega
    have hstr : (saveConfig h ss p s).config.hostnameStr = (cstr h).take 31 := by
      rw [hcfg]
      unfold CONFIG_TYPE.hostnameStr
      simp only [hpos, if_true, List.append_assoc]
      rw [cstr_nulPadded _ _ _ (by decide) hpos]
      rfl
    refine ⟨by rw [hcfg]; simp only [hpos, if_true], hstr, ?_⟩
    intro hn
    rw [hstr, take_cstr_of_no_nul h 31 hn]
    exact ⟨rfl, by rw [List.length_take]; omega⟩
  · intro hl
    have hpos : 0 < ss.length := by omega
    have hstr : (saveConfig h ss p s).config.ssidStr = (cstr ss).take 31 := by
      rw [hcfg]
      unfold CONFIG_TYPE.ssidStr
      simp only [hpos, if_true]
      rw [cstr_nulPadded _ _ _ (by decide) hpos]
      rfl
    refine ⟨by rw [hcfg]; simp only [hpos, if_true], hstr, ?_⟩
    intro hn
    rw [hstr, take_cstr_of_no_nul ss 31 hn]
    exact ⟨rfl, by rw [List.length_take]; omega⟩
  · intro hl
    have hpos : 0 < p.length := by omega
    have hstr : (saveConfig h ss p s).config.ssid_pwdStr = (cstr p).take 63 := by
      rw [hcfg]
      unfold CONFIG_TYPE.ssid_pwdStr
      simp only [hpos, if_true]
      have := cstr_nulPadded WIFI_PASSWD_LEN p [] (by decide) hpos
      rw [List.append_nil] at this
      rw [this]
      rfl
    refine ⟨by rw [hcfg]; simp only [hpos, if_true], hstr, ?_⟩
    intro hn
    rw [hstr, take_cstr_of_no_nul p 63 hn]
    exact ⟨rfl, by rw [List.length_take]; omega⟩
  · intro s2 hw2
    rw [hcfg, saveConfig_config h ss p s2 hw2]

theorem saveConfig_truncates_witness :
    (saveConfig (List.replicate 40 97) (List.replicate 33 98) (List.replicate 65 99)
        factoryState).config.hostnameStr = List.replicate 31 97 ∧
    (saveConfig (List.replicate 40 97) (List.replicate 33 98) (List.replicate 65 99)
        factoryState).config.ssidStr = List.replicate 31 98 ∧
    (saveConfig (List.replicate 40 97) (List.replicate 33 98) (List.replicate 65 99)
        factoryState).config.ssid_pwdStr = List.replicate 63 99 :=
  ⟨((saveConfig_truncates (List.replicate 40 97) (List.replicate 33 98) (List.replicate 65 99)
      factoryState (by decide)).1 (by decide)).2.2 (by decide) |>.1,
   ((saveConfig_truncates (List.replicate 40 97) (List.replicate 33 98) (List.replicate 65 99)
      factoryState (by decide)).2.1 (by decide)).2.2 (by decide) |>.1,
   ((saveConfig_truncates (List.replicate 40 97) (List.replicate 33 98) (List.replicate 65 99)
      factoryState (by decide)).2.2.1 (by decide)).2.2 (by decide) |>.1⟩

/-- A hostname of 33 bytes is stored as its first 31 bytes, not its first 32. -/
theorem saveConfig_truncates_counterexample :
    32 < (List.replicate 33 97).length ∧
    (saveConfig (List.replicate 33 97) (lit "HomeNet") (lit "secret")
        factoryState).config.hostname_flag = CFG_SET ∧
    (saveConfig (List.replicate 33 97) (lit "HomeNet") (lit "secret")
        factoryState).config.hostnameStr ≠ (List.replicate 33 97).take HOSTNAME_LEN ∧
    (saveConfig (List.replicate 33 97) (lit "HomeNet") (lit "secret")
        factoryState).config.hostnameStr.length = 31 := by
  decide

theorem selectBest_congr (c c' : CONFIG_TYPE) (scan : List Candidate)
    (h1 : c.ssid_flag = c'.ssid_flag) (h2 : c.ssidMem = c'.ssidMem) :
    selectBest c scan = selectBest c' scan := by
  have : scanStep c = scanStep c' := by
    funext b x
    unfold scanStep
    rw [h1, h2]
  unfold selectBest
  rw [this]

theorem selectBest_flag_not_set (c : CONFIG_TYPE) (scan : List Candidate)
    (h : c.ssid_flag ≠ CFG_SET) : selectBest c scan = Best.init := by
  unfold selectBest
  generalize Best.init = b
  induction scan generalizing b with
  | nil => rfl
  | cons x l ih =>
    rw [List.foldl_cons]
    have hs : scanStep c b x = b := by
      unfold scanStep
      simp [h]
    rw [hs]
    exact ih b

/-- The Wi-Fi part of `coreSetup` reads the record only through the hostname string, the
SSID flag, the memory at `config.ssid` and the password string. -/
theorem coreSetupNetwork_congr (status : Bool → Nat → Bool) (scan : List Candidate)
    (s s' : State) (hm : s.wifimode = s'.wifimode) (ht : s.trace = s'.trace)
    (hh : s.config.hostnameStr = s'.config.hostnameStr)
    (hf : s.config.ssid_flag = s'.config.ssid_flag)
    (hs : s.config.ssidMem = s'.config.ssidMem)
    (hp : s.config.ssid_pwdStr = s'.config.ssid_pwdStr) :
    (coreSetupNetwork status scan s).trace = (coreSetupNetwork status scan s').trace ∧
    (coreSetupNetwork status scan s).wifimode = (coreSetupNetwork status scan s').wifimode := by
  have hb := selectBest_congr s.config s'.config scan hf hs
  have hss : s.config.ssidStr = s'.config.ssidStr := by
    unfold CONFIG_TYPE.ssidStr
    unfold CONFIG_TYPE.ssidMem at hs
    rw [hs]
  have ha : stationAttempt scan s = stationAttempt scan s' := by
    unfold stationAttempt; rw [hm, hb]
  have hc : blinkCount status scan s = blinkCount status scan s' := by
    unfold blinkCount; rw [ha]
  have hw : connectedAfterWait status scan s = connectedAfterWait status scan s' := by
    unfold connectedAfterWait; rw [ha, hc]
  unfold coreSetupNetwork
  simp only [ha, hc, hw, hm, ht, hh, hss, hp, hb]
  split <;> exact ⟨rfl, rfl⟩

theorem cstr_pos_iff_head (a : List Nat) (f : Nat) (r r' : List Nat) :
    0 < (cstr (a ++ f :: r)).length ↔ 0 < (cstr (a ++ f :: r')).length := by
  unfold cstr
  cases a with
  | nil =>
    by_cases hf : f = 0 <;> simp [List.takeWhile_cons, hf]
  | cons y l =>
    by_cases hy : y = 0 <;> simp [List.takeWhile_cons, hy]

theorem wireConfig_wifimode (s : State) :
    (wireConfig s).wifimode =
      if (EEPROM_get s.eeprom).ssid_flag = CFG_SET then
        (if 0 < (cstr ((EEPROM_get s.eeprom).ssid ++
            (EEPROM_get s.eeprom).ssid_pwd_flag :: (EEPROM_get s.eeprom).ssid_pwd)).length
          then WiFiMode.WIFI_STA else s.wifimode)
      else WiFiMode.WIFI_AP := by
  unfold wireConfig
  generalize EEPROM_get s.eeprom = c
  obtain ⟨f1, hn, f2, ss, f3, pw⟩ := c
  by_cases h1 : f1 = CFG_SET <;> by_cases h2 : f2 = CFG_SET <;>
    simp [h1, h2, CONFIG_TYPE.ssidStr]

theorem wireConfig_trace (s : State) : (wireConfig s).trace = s.trace := rfl

/-- Two stored records that carry the same flags and the same bytes in every field whose
flag is `CFG_SET` load into records that the rest of the boot sequence cannot tell
apart. -/
theorem wireConfig_agree (s s' : State) (hm : s.wifimode = s'.wifimode)
    (f1 : (EEPROM_get s'.eeprom).hostname_flag = (EEPROM_get s.eeprom).hostname_flag)
    (f2 : (EEPROM_get s'.eeprom).ssid_flag = (EEPROM_get s.eeprom).ssid_flag)
    (f3 : (EEPROM_get s'.eeprom).ssid_pwd_flag = (EEPROM_get s.eeprom).ssid_pwd_flag)
    (g1 : (EEPROM_get s.eeprom).hostname_flag = CFG_SET →
      (EEPROM_get s'.eeprom).hostname = (EEPROM_get s.eeprom).hostname)
    (g2 : (EEPROM_get s.eeprom).ssid_flag = CFG_SET →
      (EEPROM_get s'.eeprom).ssid = (EEPROM_get s.eeprom).ssid)
    (g3 : (EEPROM_get s.eeprom).ssid_pwd_flag = CFG_SET →
      (EEPROM_get s'.eeprom).ssid_pwd = (EEPROM_get s.eeprom).ssid_pwd) :
    (wireConfig s).wifimode = (wireConfig s').wifimode ∧
    (wireConfig s).config.hostnameStr = (wireConfig s').config.hostnameStr ∧
    (wireConfig s).config.ssid_flag = (wireConfig s').config.ssid_flag ∧
    (wireConfig s).config.ssidMem = (wireConfig s').config.ssidMem ∧
    (wireConfig s).config.ssid_pwdStr = (wireConfig s').config.ssid_pwdStr := by
  have hssid : (wireConfig s).config.ssid = (wireConfig s').config.ssid := by
    rw [wireConfig_config, wireConfig_config]
    simp only [f2]
    by_cases h : (EEPROM_get s.eeprom).ssid_flag = CFG_SET
    · simp only [h, if_true, g2 h]
    · simp only [h, if_false, CFG_NOT_SET]
      rw [memset_of_le _ _ (EEPROM_get_ssid_length _), memset_of_le _ _ (EEPROM_get_ssid_length _)]
  have hpwd : (wireConfig s).config.ssid_pwd = (wireConfig s').config.ssid_pwd := by
    rw [wireConfig_config, wireConfig_config]
    simp only [f3]
    by_cases h : (EEPROM_get s.eeprom).ssid_pwd_flag = CFG_SET
    · simp only [h, ne_eq, not_true_eq_false, if_false, g3 h]
    · simp only [h, ne_eq, not_false_eq_true, if_true, CFG_NOT_SET]
      rw [memset_of_le _ _ (EEPROM_get_ssid_pwd_length _),
        memset_of_le _ _ (EEPROM_get_ssid_pwd_length _)]
  have hf2 : (wireConfig s).config.ssid_flag = (wireConfig s').config.ssid_flag := by
    rw [wireConfig_config, wireConfig_config]; exact f2.symm
  have hf3 : (wireConfig s).config.ssid_pwd_flag = (wireConfig s').config.ssid_pwd_flag := by
    rw [wireConfig_config, wireConfig_config]; exact f3.symm
  refine ⟨?_, ?_, hf2, ?_, ?_⟩
  · rw [wireConfig_wifimode, wireConfig_wifimode, f2, f3, hm]
    by_cases h : (EEPROM_get s.eeprom).ssid_flag = CFG_SET
    · simp only [h, if_true, g2 h]
      have := cstr_pos_iff_head (EEPROM_get s.eeprom).ssid (EEPROM_get s.eeprom).ssid_pwd_flag
        (EEPROM_get s.eeprom).ssid_pwd (EEPROM_get s'.eeprom).ssid_pwd
      by_cases hp : 0 < (cstr ((EEPROM_get s.eeprom).ssid ++
          (EEPROM_get s.eeprom).ssid_pwd_flag :: (EEPROM_get s.eeprom).ssid_pwd)).length
      · rw [if_pos hp, if_pos (this.mp hp)]
      · rw [if_neg hp, if_neg (fun h' => hp (this.mpr h'))]
    · simp only [h, if_false]
  · by_cases h : (EEPROM_get s.eeprom).hostname_flag = CFG_SET
    · have e1 : (wireConfig s).config.hostname = (wireConfig s').config.hostname := by
        rw [wireConfig_config, wireConfig_config]
        simp only [f1, h, ne_eq, not_true_eq_false, if_false, g1 h]
      unfold CONFIG_TYPE.hostnameStr
      rw [e1, hssid, hpwd, hf2, hf3]
    · rw [(wireConfig_not_set s).1 h, (wireConfig_not_set s').1 (by rw [f1]; exact h)]
  · unfold CONFIG_TYPE.ssidMem
    rw [hssid, hpwd, hf3]
  · unfold CONFIG_TYPE.ssid_pwdStr
    rw [hpwd]

/-- C5: loading fails safe on each field whose flag is not `CFG_SET`, and the bytes stored
in such a field have no influence on what the boot sequence does. -/
theorem wireConfig_fails_safe (s : State) (e : List Nat) :
    ((EEPROM_get e).hostname_flag ≠ CFG_SET →
      (wireConfig { s with eeprom := e }).config.hostnameStr = DEFAULT_HOSTNAME) ∧
    ((EEPROM_get e).ssid_flag ≠ CFG_SET →
      (wireConfig { s with eeprom := e }).config.ssid = List.replicate WIFI_SSID_LEN 0 ∧
      (wireConfig { s with eeprom := e }).wifimode = WiFiMode.WIFI_AP) ∧
    ((EEPROM_get e).ssid_pwd_flag ≠ CFG_SET →
      (wireConfig { s with eeprom := e }).config.ssid_pwd = List.replicate WIFI_PASSWD_LEN 0) ∧
    (∀ (e' : List Nat) (status : Bool → Nat → Bool) (scan : List Candidate)
        (files : FileSystem),
      (EEPROM_get e').hostname_flag = (EEPROM_get e).hostname_flag →
      (EEPROM_get e').ssid_flag = (EEPROM_get e).ssid_flag →
      (EEPROM_get e').ssid_pwd_flag = (EEPROM_get e).ssid_pwd_flag →
      ((EEPROM_get e).hostname_flag = CFG_SET →
        (EEPROM_get e').hostname = (EEPROM_get e).hostname) →
      ((EEPROM_get e).ssid_flag = CFG_SET → (EEPROM_get e').ssid = (EEPROM_get e).ssid) →
      ((EEPROM_get e).ssid_pwd_flag = CFG_SET →
        (EEPROM_get e').ssid_pwd = (EEPROM_get e).ssid_pwd) →
      (bootNetwork status scan e files).trace = (bootNetwork status scan e' files).trace ∧
      (bootNetwork status scan e files).wifimode =
        (bootNetwork status scan e' files).wifimode) := by
  obtain ⟨a1, a2, a3⟩ := wireConfig_not_set { s with eeprom := e }
  refine ⟨a1, a2, a3, ?_⟩
  intro e' status scan files f1 f2 f3 g1 g2 g3
  obtain ⟨hm, hh, hf, hs, hp⟩ :=
    wireConfig_agree (powerOn e files) (powerOn e' files) rfl f1 f2 f3 g1 g2 g3
  unfold bootNetwork
  exact coreSetupNetwork_congr status scan _ _ hm rfl hh hf hs hp

theorem wireConfig_fails_safe_witness :
    (wireConfig { factoryState with eeprom := garbageA }).config.hostnameStr
      = DEFAULT_HOSTNAME ∧
    (wireConfig { factoryState with eeprom := garbageA }).config.ssid
      = List.replicate WIFI_SSID_LEN 0 ∧
    (wireConfig { factoryState with eeprom := garbageA }).config.ssid_pwd
      = List.replicate WIFI_PASSWD_LEN 0 ∧
    (bootNetwork neverConnected homeNetScan garbageA []).trace
      = (bootNetwork neverConnected homeNetScan garbageB []).trace :=
  ⟨(wireConfig_fails_safe factoryState garbageA).1 (by decide),
   ((wireConfig_fails_safe factoryState garbageA).2.1 (by decide)).1,
   (wireConfig_fails_safe factoryState garbageA).2.2.1 (by decide),
   ((wireConfig_fails_safe factoryState garbageA).2.2.2 garbageB neverConnected homeNetScan []
      (by decide) (by decide) (by decide) (by decide) (by decide) (by decide)).1⟩

/-- The template rebuild writes files and nothing else. -/
theorem updateHtmlTemplate_frame (fuel : Nat) (name : List Nat) (b : Bool) (clk : Clock)
    (s s' : State) (h : updateHtmlTemplate fuel name b clk s = some s') :
    s'.config = s.config ∧ s'.eeprom = s.eeprom ∧ s'.wifimode = s.wifimode ∧
    s'.wifiState = s.wifiState ∧ s'.esp_reboot_requested = s.esp_reboot_requested ∧
    s'.setup_needs_update = s.setup_needs_update ∧
    s'.ap_mode_activity = s.ap_mode_activity ∧ s'.trace = s.trace := by
  unfold updateHtmlTemplate at h
  cases hr : fsRead s.files name with
  | none =>
    simp only [hr] at h
    cases h
    exact ⟨rfl, rfl, rfl, rfl, rfl, rfl, rfl, rfl⟩
  | some html =>
    simp only [hr] at h
    cases hsub : substitute fuel s.config (getTimestamp s.wifimode clk) (readString html) with
    | none => simp [hsub] at h
    | some out =>
      simp only [hsub, Option.map_some'] at h
      cases h
      exact ⟨rfl, rfl, rfl, rfl, rfl, rfl, rfl, rfl⟩

/-- C6: with no SSID configured the boot sequence makes no station attempt and ends in
access-point mode with the DNS responder started, whatever the scan and the station
status. -/
theorem boot_without_ssid (status : Bool → Nat → Bool) (scan : List Candidate)
    (e : List Nat) (files : FileSystem) (h : (EEPROM_get e).ssid_flag ≠ CFG_SET) :
    (bootNetwork status scan e files).wifimode = WiFiMode.WIFI_AP ∧
    (bootNetwork status scan e files).trace =
      [Action.WiFi_hostname (wireConfig (powerOn e files)).config.hostnameStr,
       Action.WiFi_mode WiFiMode.WIFI_AP, Action.WiFi_mode WiFiMode.WIFI_AP,
       Action.WiFi_softAP (wireConfig (powerOn e files)).config.hostnameStr,
       Action.dnsServer_start] ∧
    (∀ a b c, Action.WiFi_begin a b c ∉ (bootNetwork status scan e files).trace) ∧
    Action.dnsServer_start ∈ (bootNetwork status scan e files).trace ∧
    (∀ fuel clk s', coreSetup fuel status scan clk (powerOn e files) = some s' →
      s'.wifimode = WiFiMode.WIFI_AP ∧
      s'.trace = (bootNetwork status scan e files).trace) ∧
    (fsRead files setupTemplate = none → ∀ fuel clk,
      coreSetup fuel status scan clk (powerOn e files) =
        some (bootNetwork status scan e files)) := by
  have hmode : (wireConfig (powerOn e files)).wifimode = WiFiMode.WIFI_AP :=
    wireConfig_wifimode_of_not_set (powerOn e files) h
  have hatt : stationAttempt scan (wireConfig (powerOn e files)) = false := by
    unfold stationAttempt
    simp [hmode]
  have hboot : bootNetwork status scan e files =
      { wireConfig (powerOn e files) with
        wifimode := WiFiMode.WIFI_AP
        trace := [Action.WiFi_hostname (wireConfig (powerOn e files)).config.hostnameStr,
          Action.WiFi_mode WiFiMode.WIFI_AP, Action.WiFi_mode WiFiMode.WIFI_AP,
          Action.WiFi_softAP (wireConfig (powerOn e files)).config.hostnameStr,
          Action.dnsServer_start] } := by
    unfold bootNetwork coreSetupNetwork
    simp only [hatt, hmode, or_true, if_true, wireConfig_trace]
    simp [powerOn]
  have hfiles : (bootNetwork status scan e files).files = files := by
    rw [hboot]; rfl
  refine ⟨by rw [hboot], by rw [hboot], ?_, ?_, ?_, ?_⟩
  · intro a b c
    rw [hboot]
    simp
  · rw [hboot]
    simp
  · intro fuel clk s' hs
    unfold coreSetup at hs
    obtain ⟨_, _, hw, _, _, _, _, ht⟩ := updateHtmlTemplate_frame _ _ _ _ _ _ hs
    refine ⟨?_, ht⟩
    rw [hw]
    show (bootNetwork status scan e files).wifimode = WiFiMode.WIFI_AP
    rw [hboot]
  · intro hnone fuel clk
    unfold coreSetup updateHtmlTemplate
    change (match fsRead (bootNetwork status scan e files).files setupTemplate with
      | none => some (bootNetwork status scan e files)
      | some html => _) = _
    rw [hfiles, hnone]

theorem boot_without_ssid_witness :
    (bootNetwork neverConnected homeNetScan (List.replicate EEPROM_SIZE 255) []).wifimode
      = WiFiMode.WIFI_AP ∧
    Action.dnsServer_start ∈
      (bootNetwork neverConnected homeNetScan (List.replicate EEPROM_SIZE 255) []).trace :=
  ⟨(boot_without_ssid neverConnected homeNetScan (List.replicate EEPROM_SIZE 255) []
      (by decide)).1,
   (boot_without_ssid neverConnected homeNetScan (List.replicate EEPROM_SIZE 255) []
      (by decide)).2.2.2.1⟩

theorem wdRun_succ (r : List Nat) (n : Nat) :
    wdRun r (n + 1) =
      wdStep (((refreshesIn r n).map (fun _ => WdEvent.refresh)).foldl wdStep (wdRun r n))
        WdEvent.expiry := by
  unfold wdRun
  simp [wdTimeline, wdPeriod, List.foldl_append]

theorem wd_refreshes (w : WatchDog) (l : List Nat) :
    (l.map (fun _ => WdEvent.refresh)).foldl wdStep w =
      if w.restarted = true ∨ l = [] then w else { w with timer_pinged := false } := by
  induction l generalizing w with
  | nil => simp
  | cons x l ih =>
    rw [List.map_cons, List.foldl_cons, ih]
    obtain ⟨p, rs⟩ := w
    cases p <;> cases rs <;> cases l <;> simp [wdStep, watchDogRefresh]

/-- After at least one expiry the watchdog has either restarted the device or holds the
pending flag; a restart has happened exactly when some full timer period after the first
expiry held no refresh. -/
theorem wdRun_invariant (r : List Nat) (n : Nat) :
    ((wdRun r n).restarted = true ↔ ∃ k, 1 ≤ k ∧ k < n ∧ refreshesIn r k = []) ∧
    ((wdRun r n).restarted = false → (wdRun r n).timer_pinged = decide (1 ≤ n)) := by
  induction n with
  | zero =>
    refine ⟨?_, ?_⟩
    · constructor
      · intro h
        have h0 : (wdRun r 0).restarted = false := rfl
        rw [h0] at h
        exact absurd h (by decide)
      · rintro ⟨k, _, hk, _⟩; omega
    · intro _; rfl
  | succ n ih =>
    obtain ⟨ih1, ih2⟩ := ih
    rw [wdRun_succ, wd_refreshes]
    cases hrs : (wdRun r n).restarted with
    | true =>
      have hex := ih1.mp hrs
      refine ⟨?_, ?_⟩
      · simp only [true_or, if_true, wdStep, hrs]
        constructor
        · intro _
          obtain ⟨k, h1, h2, h3⟩ := hex
          exact ⟨k, h1, by omega, h3⟩
        · intro _; trivial
      · simp [wdStep, hrs]
    | false =>
      have hp := ih2 hrs
      have hno : ¬ ∃ k, 1 ≤ k ∧ k < n ∧ refreshesIn r k = [] := by
        intro h
        have := ih1.mpr h
        rw [hrs] at this
        exact absurd this (by decide)
      by_cases hl : refreshesIn r n = []
      · simp only [hl, or_true, if_true]
        by_cases hn : 1 ≤ n
        · have hp' : (wdRun r n).timer_pinged = true := by rw [hp]; simp [hn]
          refine ⟨?_, ?_⟩
          · simp only [wdStep, hrs, TimerHandler, hp', if_true]
            constructor
            · intro _; exact ⟨n, hn, by omega, hl⟩
            · intro _; simp
          · simp [wdStep, hrs, TimerHandler, hp']
        · have hn0 : n = 0 := by omega
          have hp' : (wdRun r n).timer_pinged = false := by rw [hp]; simp [hn0]
          refine ⟨?_, ?_⟩
          · simp only [wdStep, hrs, TimerHandler, hp']
            constructor
            · intro h; simp [hrs] at h
            · rintro ⟨k, h1, h2, _⟩; omega
          · simp [wdStep, hrs, TimerHandler, hp']
      · simp only [hrs, hl, or_self, if_false]
        refine ⟨?_, ?_⟩
        · simp only [wdStep, TimerHandler, hrs]
          constructor
          · intro h; simp [hrs] at h
          · rintro ⟨k, h1, h2, h3⟩
            exfalso
            by_cases hk : k = n
            · subst hk; exact hl h3
            · exact hno ⟨k, h1, by omega, h3⟩
        · simp [wdStep, TimerHandler, hrs]

theorem refreshesIn_eq_nil (r : List Nat) (k : Nat) :
    refreshesIn r k = [] ↔ ∀ t ∈ r, ¬ (k * wdInterval ≤ t ∧ t < (k + 1) * wdInterval) := by
  unfold refreshesIn
  rw [List.filter_eq_nil_iff]
  constructor
  · intro h t ht; simpa using h t ht
  · intro h t ht; simpa using h t ht

/-- The two-phase watchdog of the ESP8266 build restarts the device exactly when a full
timer period after the first expiry holds no refresh; a restart implies a refresh-free
window of one timeout, a refresh-free window of two timeouts implies a restart, and the
restart comes at the first expiry that ends a refresh-free period. -/
theorem esp8266_watchdog (r : List Nat) (n : Nat) :
    ((wdRun r n).restarted = true ↔ ∃ k, 1 ≤ k ∧ k < n ∧ refreshesIn r k = []) ∧
    ((wdRun r n).restarted = true →
      ∃ w, w + wdInterval ≤ n * wdInterval ∧ ∀ t ∈ r, ¬ (w ≤ t ∧ t < w + wdInterval)) ∧
    (∀ w, w + 2 * wdInterval ≤ n * wdInterval →
      (∀ t ∈ r, ¬ (w ≤ t ∧ t < w + 2 * wdInterval)) → (wdRun r n).restarted = true) ∧
    ((wdRun r n).restarted = false → (wdRun r (n + 1)).restarted = true →
      refreshesIn r n = [] ∧ (2 ≤ n → refreshesIn r (n - 1) ≠ [])) := by
  have hiff := (wdRun_invariant r n).1
  have hT : wdInterval = 15000 := rfl
  refine ⟨hiff, ?_, ?_, ?_⟩
  · intro h
    obtain ⟨k, h1, h2, h3⟩ := hiff.mp h
    refine ⟨k * wdInterval, ?_, ?_⟩
    · have : (k + 1) * wdInterval ≤ n * wdInterval := Nat.mul_le_mul_right _ (by omega)
      rw [Nat.add_mul, Nat.one_mul] at this
      exact this
    · intro t ht
      have := (refreshesIn_eq_nil r k).mp h3 t ht
      rw [Nat.add_mul, Nat.one_mul] at this
      exact this
  · intro w hw hnone
    apply hiff.mpr
    rw [hT] at hw hnone
    refine ⟨w / 15000 + 1, by omega, by omega, ?_⟩
    rw [refreshesIn_eq_nil]
    intro t ht hcon
    apply hnone t ht
    rw [hT] at hcon
    omega
  · intro hn hs
    obtain ⟨k, h1, h2, h3⟩ := (wdRun_invariant r (n + 1)).1.mp hs
    have hno : ∀ j, 1 ≤ j → j < n → refreshesIn r j ≠ [] := by
      intro j hj1 hj2 hj3
      have := hiff.mpr ⟨j, hj1, hj2, hj3⟩
      rw [hn] at this
      exact absurd this (by decide)
    have hk : k = n := by
      by_contra hne
      exact hno k h1 (by omega) h3
    subst hk
    exact ⟨h3, fun h2n => hno (k - 1) (by omega) (by omega)⟩

theorem hwAdvance_restarted (w : HwWatchDog) (t : Nat) (h : w.restarted = true) :
    hwAdvance w t = w := by
  unfold hwAdvance
  rw [if_pos h]

theorem hwRefresh_restarted (w : HwWatchDog) (t : Nat) (h : w.restarted = true) :
    hwRefresh w t = w := by
  unfold hwRefresh
  rw [hwAdvance_restarted w t h, if_pos h]

theorem hw_foldl_restarted (w : HwWatchDog) (r : List Nat) (h : w.restarted = true) :
    r.foldl hwRefresh w = w := by
  induction r with
  | nil => rfl
  | cons t l ih => rw [List.foldl_cons, hwRefresh_restarted w t h, ih]

/-- The hardware watchdog, from a state whose counter was last reset at `w.since`: the
alarm is raised by time `H` exactly when some window of one timeout that starts at or
after the reset and ends by `H` holds no refresh. -/
theorem hw_run_iff (H : Nat) (r : List Nat) :
    ∀ w : HwWatchDog, w.restarted = false → List.Pairwise (fun a b => a ≤ b) r →
      (∀ t ∈ r, w.since ≤ t ∧ t ≤ H) →
      ((hwAdvance (r.foldl hwRefresh w) H).restarted = true ↔
        ∃ a, w.since ≤ a ∧ a + wdInterval ≤ H ∧ ∀ t ∈ r, ¬ (a < t ∧ t < a + wdInterval)) := by
  induction r with
  | nil =>
    intro w hw _ _
    simp only [List.foldl_nil, List.not_mem_nil, false_imp_iff, implies_true, and_true]
    unfold hwAdvance watchDogInterrupt
    rw [if_neg (by simp [hw])]
    constructor
    · intro h
      by_cases hc : w.since + wdInterval ≤ H
      · exact ⟨w.since, le_refl _, hc⟩
      · rw [if_neg hc] at h
        rw [hw] at h
        exact absurd h (by decide)
    · rintro ⟨a, h1, h2⟩
      rw [if_pos (by omega)]
  | cons t l ih =>
    intro w hw hs hb
    have ht := hb t (List.mem_cons_self _ _)
    have hl : ∀ x ∈ l, t ≤ x := fun x hx => (List.pairwise_cons.mp hs).1 x hx
    rw [List.foldl_cons]
    by_cases hc : w.since + wdInterval ≤ t
    · have hr : (hwRefresh w t).restarted = true := by
        unfold hwRefresh hwAdvance watchDogInterrupt
        simp [hw, hc]
      rw [hw_foldl_restarted _ _ hr, hwAdvance_restarted _ _ hr]
      simp only [hr, true_iff]
      refine ⟨w.since, le_refl _, by omega, ?_⟩
      intro x hx hcon
      rcases List.mem_cons.mp hx with rfl | hx
      · omega
      · have := hl x hx
        omega
    · have hr : hwRefresh w t = { w with since := t } := by
        unfold hwRefresh hwAdvance watchDogInterrupt
        simp [hw, hc]
      rw [hr]
      rw [ih { w with since := t } hw (List.pairwise_cons.mp hs).2
        (fun x hx => ⟨hl x hx, (hb x (List.mem_cons_of_mem _ hx)).2⟩)]
      constructor
      · rintro ⟨a, h1, h2, h3⟩
        refine ⟨a, by simp only at h1; omega, h2, ?_⟩
        intro x hx hcon
        rcases List.mem_cons.mp hx with rfl | hx
        · simp only at h1
          omega
        · exact h3 x hx hcon
      · rintro ⟨a, h1, h2, h3⟩
        have hta := h3 t (List.mem_cons_self _ _)
        refine ⟨a, ?_, h2, fun x hx => h3 x (List.mem_cons_of_mem _ hx)⟩
        show t ≤ a
        by_contra hlt
        exact hta ⟨by omega, by omega⟩

/-- C8 (amended): on the esp32 build the hardware countdown restarts the device exactly
when some window of one timeout holds no refresh, and a refresh resets the countdown; on
the ESP8266 build the two-phase check restarts it exactly when a full timer period after
the first expiry holds no refresh, so a refresh-free window of one timeout is necessary
and one of two timeouts is sufficient. -/
theorem watchdog_restart_condition (r : List Nat) (n H : Nat)
    (hsorted : List.Pairwise (fun a b => a ≤ b) r) (hbound : ∀ t ∈ r, t ≤ H) :
    ((hwRun r H).restarted = true ↔
      ∃ a, a + wdInterval ≤ H ∧ ∀ t ∈ r, ¬ (a < t ∧ t < a + wdInterval)) ∧
    (∀ w t, (hwAdvance w t).restarted = false → (hwRefresh w t).since = t) ∧
    ((wdRun r n).restarted = true ↔ ∃ k, 1 ≤ k ∧ k < n ∧ refreshesIn r k = []) ∧
    ((wdRun r n).restarted = true →
      ∃ a, a + wdInterval ≤ n * wdInterval ∧ ∀ t ∈ r, ¬ (a ≤ t ∧ t < a + wdInterval)) ∧
    (∀ a, a + 2 * wdInterval ≤ n * wdInterval →
      (∀ t ∈ r, ¬ (a ≤ t ∧ t < a + 2 * wdInterval)) → (wdRun r n).restarted = true) ∧
    ((wdRun r n).restarted = false → (wdRun r (n + 1)).restarted = true →
      refreshesIn r n = [] ∧ (2 ≤ n → refreshesIn r (n - 1) ≠ [])) := by
  obtain ⟨e1, e2, e3, e4⟩ := esp8266_watchdog r n
  refine ⟨?_, ?_, e1, e2, e3, e4⟩
  · unfold hwRun
    rw [hw_run_iff H r HwWatchDog.armed rfl hsorted
      (fun t ht => ⟨Nat.zero_le _, hbound t ht⟩)]
    constructor
    · rintro ⟨a, _, h2, h3⟩
      exact ⟨a, h2, h3⟩
    · rintro ⟨a, h2, h3⟩
      exact ⟨a, Nat.zero_le _, h2, h3⟩
  · intro w t h
    unfold hwRefresh
    rw [if_neg (by simp [h])]

theorem watchdog_restart_condition_witness :
    ((hwRun [100, 15100, 31000] 45000).restarted = true ↔
      ∃ a, a + wdInterval ≤ 45000 ∧
        ∀ t ∈ [100, 15100, 31000], ¬ (a < t ∧ t < a + wdInterval)) ∧
    (wdRun [100, 14000] 3).restarted = true :=
  ⟨(watchdog_restart_condition [100, 15100, 31000] 3 45000 (by decide) (by decide)).1,
   (watchdog_restart_condition [100, 14000] 3 45000 (by decide)
      (by decide)).2.2.2.2.1 14001 (by decide) (by decide)⟩

/-- On the ESP8266 build a main loop that refreshes at 0.1 s, 15.1 s and 31 s leaves the
window from 15.101 s to 30.101 s without a refresh, and the watchdog does not restart the
device, whether the window is taken with or without its first instant. -/
theorem watchdog_window_counterexample :
    ¬ ((wdRun [100, 15100, 31000] 3).restarted = true ↔
      ∃ a, a + wdInterval ≤ 3 * wdInterval ∧
        ∀ t ∈ [100, 15100, 31000], ¬ (a ≤ t ∧ t < a + wdInterval)) ∧
    ¬ ((wdRun [100, 15100, 31000] 3).restarted = true ↔
      ∃ a, a + wdInterval ≤ 3 * wdInterval ∧
        ∀ t ∈ [100, 15100, 31000], ¬ (a < t ∧ t < a + wdInterval)) := by
  have hr : ¬ (wdRun [100, 15100, 31000] 3).restarted = true := by decide
  exact ⟨fun h => hr (h.mpr ⟨15101, by decide, by decide⟩),
    fun h => hr (h.mpr ⟨15101, by decide, by decide⟩)⟩

/-- A tick in access-point mode with no recorded activity and no pending reboot: the DNS
responder is served, the idle rule is evaluated, a pending rebuild is made. -/
theorem coreLoop_ap_idle (fuel millis : Nat) (clk : Clock) (heap : List Nat) (s : State)
    (hmode : s.wifimode = WiFiMode.WIFI_AP) (hact : s.ap_mode_activity = false)
    (hflag : s.esp_reboot_requested = false) :
    coreLoop fuel millis clk heap none none s =
      if s.setup_needs_update then
        match updateHtmlTemplate fuel setupTemplate false clk
          { s with trace := s.trace ++ [Action.dnsServer_processNextRequest]
                   esp_reboot_requested := decide (300000 ≤ millis) } with
        | none => Outcome.diverged
        | some s2 => Outcome.returned { s2 with setup_needs_update := false }
      else Outcome.returned
        { s with trace := s.trace ++ [Action.dnsServer_processNextRequest]
                 esp_reboot_requested := decide (300000 ≤ millis) } := by
  obtain ⟨cfg, ee, wm, ws, rb, su, act, fs, tr⟩ := s
  simp only at hmode hact hflag
  subst hmode hact hflag
  by_cases hm : 300000 ≤ millis <;> cases su <;>
    simp [coreLoop, coreLoopService, coreLoopRebuild, LOG_HANDLE, hm]

/-- C9: in access-point mode with no recorded activity the tick sets the reboot flag
exactly when the uptime it reads is at least 300000 ms. -/
theorem idle_reboot_threshold (fuel millis : Nat) (clk : Clock) (heap : List Nat) (s : State)
    (hmode : s.wifimode = WiFiMode.WIFI_AP) (hact : s.ap_mode_activity = false)
    (hflag : s.esp_reboot_requested = false) :
    (∀ s', coreLoop fuel millis clk heap none none s = Outcome.returned s' →
      (s'.esp_reboot_requested = true ↔ 300000 ≤ millis)) ∧
    (∀ s', coreLoop fuel millis clk heap none none s ≠ Outcome.restarted s') ∧
    (s.setup_needs_update = false →
      coreLoop fuel millis clk heap none none s = Outcome.returned
        { s with trace := s.trace ++ [Action.dnsServer_processNextRequest]
                 esp_reboot_requested := decide (300000 ≤ millis) }) := by
  have hform := coreLoop_ap_idle fuel millis clk heap s hmode hact hflag
  refine ⟨?_, ?_, ?_⟩
  · intro s' hs
    rw [hform] at hs
    by_cases hsu : s.setup_needs_update = true
    · rw [if_pos hsu] at hs
      cases hu : updateHtmlTemplate fuel setupTemplate false clk
          { s with trace := s.trace ++ [Action.dnsServer_processNextRequest]
                   esp_reboot_requested := decide (300000 ≤ millis) } with
      | none => rw [hu] at hs; cases hs
      | some s2 =>
        rw [hu] at hs
        simp only [Outcome.returned.injEq] at hs
        obtain ⟨_, _, _, _, hrb, _, _, _⟩ := updateHtmlTemplate_frame _ _ _ _ _ _ hu
        rw [← hs]
        show s2.esp_reboot_requested = true ↔ _
        rw [hrb]
        simp
    · rw [if_neg hsu] at hs
      simp only [Outcome.returned.injEq] at hs
      rw [← hs]
      simp
  · intro s' hs
    rw [hform] at hs
    by_cases hsu : s.setup_needs_update = true
    · rw [if_pos hsu] at hs
      cases hu : updateHtmlTemplate fuel setupTemplate false clk
          { s with trace := s.trace ++ [Action.dnsServer_processNextRequest]
                   esp_reboot_requested := decide (300000 ≤ millis) } with
      | none => rw [hu] at hs; cases hs
      | some s2 => rw [hu] at hs; cases hs
    · rw [if_neg hsu] at hs
      cases hs
  · intro hsu
    rw [hform, hsu]
    simp

theorem idle_reboot_threshold_witness :
    coreLoop 1 299999 ⟨299999, none⟩ [] none none idleApState = Outcome.returned
      { idleApState with
        trace := idleApState.trace ++ [Action.dnsServer_processNextRequest]
        esp_reboot_requested := false } ∧
    coreLoop 1 300000 ⟨300000, none⟩ [] none none idleApState = Outcome.returned
      { idleApState with
        trace := idleApState.trace ++ [Action.dnsServer_processNextRequest]
        esp_reboot_requested := true } :=
  ⟨(idle_reboot_threshold 1 299999 ⟨299999, none⟩ [] idleApState (by decide) (by decide)
      (by decide)).2.2 (by decide),
   (idle_reboot_threshold 1 300000 ⟨300000, none⟩ [] idleApState (by decide) (by decide)
      (by decide)).2.2 (by decide)⟩

theorem fsRead_cons_self (fs : FileSystem) (n c : List Nat) :
    fsRead ((n, c) :: fs) n = some c := by
  simp [fsRead]

theorem fsRead_cons_ne (fs : FileSystem) (n m c : List Nat) (h : n ≠ m) :
    fsRead ((n, c) :: fs) m = fsRead fs m := by
  simp [fsRead, List.find?_cons, h]

theorem find?_filter_of_imp (p q : List Nat × List Nat → Bool) (l : FileSystem)
    (h : ∀ x, p x = true → q x = true) : (l.filter q).find? p = l.find? p := by
  induction l with
  | nil => rfl
  | cons x l ih =>
    cases hq : q x with
    | true => simp [List.filter_cons, List.find?_cons, hq, ih]
    | false =>
      have hp : p x = false := by
        cases hp : p x with
        | false => rfl
        | true => rw [h x hp] at hq; cases hq
      simp [List.filter_cons, List.find?_cons, hq, hp, ih]

theorem fsRead_fsRemove_ne (fs : FileSystem) (a b : List Nat) (h : a ≠ b) :
    fsRead (fsRemove fs a) b = fsRead fs b := by
  unfold fsRead fsRemove
  rw [find?_filter_of_imp]
  intro x hx
  simp only [decide_eq_true_eq] at hx
  simp only [ne_eq, decide_not, Bool.not_eq_true', decide_eq_false_iff_not]
  intro hxa
  exact h (hxa ▸ hx)

theorem setup_names_distinct :
    setupPage ++ lit ".new" ≠ setupPage ∧ setupPage ++ lit ".new" ≠ setupTemplate ∧
    setupPage ≠ setupTemplate ∧ replace setupTemplate (lit ".template") [] = setupPage := by
  decide

theorem fsRead_rebuiltFiles_page (fs : FileSystem) (page : List Nat) :
    fsRead (rebuiltFiles fs page) setupPage = some page := by
  obtain ⟨h1, _, _, _⟩ := setup_names_distinct
  unfold rebuiltFiles fsRename
  have hr : fsRead (fsRemove (fsWrite fs (setupPage ++ lit ".new") page) setupPage)
      (setupPage ++ lit ".new") = some page := by
    rw [fsRead_fsRemove_ne _ _ _ (Ne.symm h1)]
    unfold fsWrite
    exact fsRead_cons_self _ _ _
  rw [hr]
  exact fsRead_cons_self _ _ _

theorem fsRead_rebuiltFiles_template (fs : FileSystem) (page : List Nat) :
    fsRead (rebuiltFiles fs page) setupTemplate = fsRead fs setupTemplate := by
  obtain ⟨h1, h2, h3, _⟩ := setup_names_distinct
  unfold rebuiltFiles fsRename
  have hr : fsRead (fsRemove (fsWrite fs (setupPage ++ lit ".new") page) setupPage)
      (setupPage ++ lit ".new") = some page := by
    rw [fsRead_fsRemove_ne _ _ _ (Ne.symm h1)]
    unfold fsWrite
    exact fsRead_cons_self _ _ _
  rw [hr]
  simp only []
  rw [fsRead_cons_ne _ _ _ _ h3, fsRead_fsRemove_ne _ _ _ h3, fsRead_fsRemove_ne _ _ _ h2,
    fsRead_fsRemove_ne _ _ _ h3]
  unfold fsWrite
  rw [fsRead_cons_ne _ _ _ _ h2, fsRead_fsRemove_ne _ _ _ h2]

/-- The rebuild of the setup page in closed form. -/
theorem updateHtmlTemplate_setup (fuel : Nat) (b : Bool) (clk : Clock) (s : State) :
    updateHtmlTemplate fuel setupTemplate b clk s =
      match fsRead s.files setupTemplate with
      | none => some s
      | some content =>
        (substitute fuel s.config (getTimestamp s.wifimode clk) (readString content)).map
          fun html => { s with files := rebuiltFiles s.files (cstr html) } := by
  unfold updateHtmlTemplate rebuiltFiles
  rw [setup_names_distinct.2.2.2]

theorem substituteTimestamp_no_token (fuel : Nat) (ts1 ts2 mid : List Nat)
    (h : indexOf mid (lit "{timestamp}") = -1) :
    substituteTimestamp fuel ts1 mid = substituteTimestamp fuel ts2 mid := by
  unfold substituteTimestamp
  rw [h]
  cases fuel with
  | zero => rfl
  | succ n => simp [replaceWhile, h]

/-- C10 (amended): a second rebuild right after a first one, with the configuration
unchanged, finishes and writes the same page, provided both rebuilds read the same
timestamp or the text left by the three configuration substitutions holds no
`{timestamp}` token. -/
theorem rebuild_twice_same_page (fuel : Nat) (clk1 clk2 : Clock) (s s1 : State)
    (h1 : updateHtmlTemplate fuel setupTemplate false clk1 s = some s1)
    (hts : getTimestamp s.wifimode clk1 = getTimestamp s.wifimode clk2 ∨
      ∀ content mid, fsRead s.files setupTemplate = some content →
        substituteConfig fuel s.config (readString content) = some mid →
        indexOf mid (lit "{timestamp}") = -1) :
    ∃ s2, updateHtmlTemplate fuel setupTemplate false clk2 s1 = some s2 ∧
      fsRead s2.files setupPage = fsRead s1.files setupPage := by
  obtain ⟨hcfg, _, hwm, _, _, _, _, _⟩ := updateHtmlTemplate_frame _ _ _ _ _ _ h1
  rw [updateHtmlTemplate_setup] at h1
  rw [updateHtmlTemplate_setup]
  cases hr : fsRead s.files setupTemplate with
  | none =>
    rw [hr] at h1
    simp only [Option.some.injEq] at h1
    subst h1
    rw [hr]
    exact ⟨s, rfl, rfl⟩
  | some content =>
    rw [hr] at h1
    simp only [] at h1
    cases hsub : substitute fuel s.config (getTimestamp s.wifimode clk1) (readString content) with
    | none => rw [hsub] at h1; cases h1
    | some html =>
      rw [hsub] at h1
      simp only [Option.map_some', Option.some.injEq] at h1
      have hsame : substitute fuel s.config (getTimestamp s.wifimode clk2) (readString content)
          = some html := by
        rcases hts with hts | hts
        · rw [← hts]; exact hsub
        · unfold substitute at hsub ⊢
          cases hc : substituteConfig fuel s.config (readString content) with
          | none => rw [hc] at hsub; cases hsub
          | some mid =>
            rw [hc] at hsub
            simp only [Option.some_bind] at hsub ⊢
            rw [substituteTimestamp_no_token fuel _ (getTimestamp s.wifimode clk1) mid
              (hts content mid hr hc)]
            exact hsub
      have hfiles : s1.files = rebuiltFiles s.files (cstr html) := by rw [← h1]
      have htpl : fsRead s1.files setupTemplate = some content := by
        rw [hfiles, fsRead_rebuiltFiles_template, hr]
      rw [htpl, hcfg, hwm]
      simp only [hsame, Option.map_some']
      refine ⟨_, rfl, ?_⟩
      show fsRead (rebuiltFiles s1.files (cstr html)) setupPage = _
      rw [fsRead_rebuiltFiles_page, hfiles, fsRead_rebuiltFiles_page]

set_option maxRecDepth 100000 in
theorem rebuild_twice_same_page_witness :
    ∃ s2, updateHtmlTemplate 2 setupTemplate false ⟨1000, some ⟨124, 0, 5, 7, 8, 9⟩⟩
        { timestampPageState with
          files := rebuiltFiles timestampPageState.files (lit "Built at 000001.000") }
        = some s2 ∧
      fsRead s2.files setupPage =
        fsRead { timestampPageState with
          files := rebuiltFiles timestampPageState.files (lit "Built at 000001.000") }.files
          setupPage :=
  rebuild_twice_same_page 2 ⟨1000, none⟩ ⟨1000, some ⟨124, 0, 5, 7, 8, 9⟩⟩ timestampPageState
    { timestampPageState with
      files := rebuiltFiles timestampPageState.files (lit "Built at 000001.000") }
    (by decide) (Or.inl (by decide))

set_option maxRecDepth 100000 in
/-- Two rebuilds of a template that shows `{timestamp}`, one second apart, write different
pages. -/
theorem rebuild_twice_counterexample :
    (updateHtmlTemplate 2 setupTemplate false ⟨1000, none⟩ timestampPageState).bind
        (fun s1 => fsRead s1.files setupPage) = some (lit "Built at 000001.000") ∧
    ((updateHtmlTemplate 2 setupTemplate false ⟨1000, none⟩ timestampPageState).bind
        (fun s1 => updateHtmlTemplate 2 setupTemplate false ⟨2000, none⟩ s1)).bind
        (fun s2 => fsRead s2.files setupPage) = some (lit "Built at 000002.000") := by
  decide

theorem readU16_length (mem : List Nat) (n : Nat) : (readU16 mem n).length = n := by
  induction n generalizing mem with
  | zero => rfl
  | succ n ih => simp [readU16, ih]

theorem fsRead_saveCapture_snapshot (cap : Capture) (heap : List Nat) (clk : Clock)
    (s : State) :
    fsRead (saveCapture cap heap clk s).files lastSignalFile =
      some ((rawBytes cap.raw ++ heap).take cap.rawlen) := by
  unfold saveCapture fsWrite
  exact fsRead_cons_self _ _ _

set_option maxRecDepth 100000 in
/-- C11 (code at the failing input): after the capture 560, 560, 1680 has been saved, the
snapshot holds four bytes, and the command `T` transmits four values read from the four
bytes, their terminator and the memory behind it, not the three captured durations. -/
theorem replay_sends_byte_count (heap rawHeap : List Nat) (clk : Clock) (s : State) :
    fsRead (saveCapture capture560 rawHeap clk s).files lastSignalFile = some [48, 2, 48, 2] ∧
    checkForRemoteCommand heap commandT (saveCapture capture560 rawHeap clk s) =
      some { saveCapture capture560 rawHeap clk s with
        trace := (saveCapture capture560 rawHeap clk s).trace ++
          [Action.irrecv_pause,
           Action.irsend_sendRaw (readU16 ([48, 2, 48, 2] ++ 0 :: heap) 4) 38,
           Action.irrecv_resume] } ∧
    (readU16 ([48, 2, 48, 2] ++ 0 :: heap) 4).length ≠ capture560.raw.length ∧
    readU16 ([48, 2, 48, 2] ++ 0 :: heap) 4 ≠ capture560.raw ∧
    (loop 1 1000 ⟨1000, none⟩ [] none none (some capture560) [] ⟨1000, none⟩ idleApState
        WatchDog.armed).1 =
      Outcome.returned (saveCapture capture560 [] ⟨1000, none⟩
        { idleApState with
          trace := idleApState.trace ++ [Action.dnsServer_processNextRequest] }) := by
  have hsnap : fsRead (saveCapture capture560 rawHeap clk s).files lastSignalFile =
      some [48, 2, 48, 2] := by
    rw [fsRead_saveCapture_snapshot]
    rfl
  have hlen : (readU16 ([48, 2, 48, 2] ++ 0 :: heap) 4).length ≠ capture560.raw.length := by
    rw [readU16_length]
    decide
  refine ⟨hsnap, ?_, hlen, fun h => hlen (by rw [h]), by decide⟩
  have hc : commandT.c = Char.toNat 'T' := rfl
  have hrs : readString [48, 2, 48, 2] = [48, 2, 48, 2] := by decide
  unfold checkForRemoteCommand
  rw [hsnap]
  simp only [hc, hrs]
  simp

/-- What a console command that returns has done: the files, the disconnect event and the
activity flag are as before, a set reboot flag is still set, and the actions it added are
console actions. -/
theorem checkForRemoteCommand_frame (heap : List Nat) (inp : ConsoleInput) (s s' : State)
    (h : checkForRemoteCommand heap inp s = some s') :
    s'.files = s.files ∧ s'.wifiState = s.wifiState ∧
    s'.ap_mode_activity = s.ap_mode_activity ∧
    (s.esp_reboot_requested = true → s'.esp_reboot_requested = true) ∧
    ∃ l, s'.trace = s.trace ++ l ∧
      ∀ a ∈ l, a = Action.WiFi_disconnect ∨ a = Action.disconnectClient ∨
        a = Action.irrecv_pause ∨ (∃ d k, a = Action.irsend_sendRaw d k) ∨
        a = Action.irrecv_resume ∨ a = Action.watchDogRefresh := by
  unfold checkForRemoteCommand at h
  split at h
  · cases h
    exact ⟨rfl, rfl, rfl, id, [Action.WiFi_disconnect], rfl, by simp⟩
  split at h
  · cases h1 : readLine inp.polls inp.c [] 0 with
    | none => rw [h1] at h; cases h
    | some r1 =>
      obtain ⟨ssid, rest, n1⟩ := r1
      rw [h1] at h
      simp only [] at h
      cases h2 : readLine rest 13 [] 0 with
      | none => rw [h2] at h; cases h
      | some r2 =>
        obtain ⟨pwd, rest2, n2⟩ := r2
        rw [h2] at h
        simp only [Option.some.injEq] at h
        subst h
        refine ⟨rfl, rfl, rfl, id, List.replicate (n1 + n2) Action.watchDogRefresh, rfl, ?_⟩
        intro a ha
        have := List.eq_of_mem_replicate ha
        simp [this]
  split at h
  · cases h
    exact ⟨rfl, rfl, rfl, id, [], by simp [wireConfig_trace], by simp⟩
  split at h
  · cases h
    exact ⟨rfl, rfl, rfl, id, [], by simp [wipeConfig], by simp⟩
  split at h
  · cases h
    exact ⟨rfl, rfl, rfl, id, [Action.disconnectClient], rfl, by simp⟩
  split at h
  · cases h
    exact ⟨rfl, rfl, rfl, fun _ => rfl, [], by simp, by simp⟩
  split at h
  · split at h
    · cases h
      exact ⟨rfl, rfl, rfl, id, [], by simp, by simp⟩
    · split at h
      · cases h
        exact ⟨rfl, rfl, rfl, id, _, rfl, by simp⟩
      · cases h
        exact ⟨rfl, rfl, rfl, id, [], by simp, by simp⟩
  · cases h
    exact ⟨rfl, rfl, rfl, id, [], by simp, by simp⟩

theorem LOG_HANDLE_frame (heap : List Nat) (input : Option ConsoleInput) (s s' : State)
    (h : LOG_HANDLE heap input s = some s') :
    s'.files = s.files ∧ s'.wifiState = s.wifiState ∧
    s'.ap_mode_activity = s.ap_mode_activity ∧
    (s.esp_reboot_requested = true → s'.esp_reboot_requested = true) ∧
    ∃ l, s'.trace = s.trace ++ l ∧
      ∀ a ∈ l, a = Action.WiFi_disconnect ∨ a = Action.disconnectClient ∨
        a = Action.irrecv_pause ∨ (∃ d k, a = Action.irsend_sendRaw d k) ∨
        a = Action.irrecv_resume ∨ a = Action.watchDogRefresh := by
  cases input with
  | none =>
    simp only [LOG_HANDLE, Option.some.injEq] at h
    subst h
    exact ⟨rfl, rfl, rfl, id, [], by simp, by simp⟩
  | some inp => exact checkForRemoteCommand_frame heap inp s s' h

theorem LOG_HANDLE_files (heap : List Nat) (input : Option ConsoleInput) (s s' : State)
    (h : LOG_HANDLE heap input s = some s') : s'.files = s.files :=
  (LOG_HANDLE_frame heap input s s' h).1

theorem fsRead_rebuiltFiles_other (fs : FileSystem) (page n : List Nat)
    (hn1 : setupPage ≠ n) (hn2 : setupPage ++ lit ".new" ≠ n) :
    fsRead (rebuiltFiles fs page) n = fsRead fs n := by
  obtain ⟨h1, _, _, _⟩ := setup_names_distinct
  unfold rebuiltFiles fsRename
  have hr : fsRead (fsRemove (fsWrite fs (setupPage ++ lit ".new") page) setupPage)
      (setupPage ++ lit ".new") = some page := by
    rw [fsRead_fsRemove_ne _ _ _ (Ne.symm h1)]
    unfold fsWrite
    exact fsRead_cons_self _ _ _
  rw [hr]
  simp only []
  rw [fsRead_cons_ne _ _ _ _ hn1, fsRead_fsRemove_ne _ _ _ hn1, fsRead_fsRemove_ne _ _ _ hn2,
    fsRead_fsRemove_ne _ _ _ hn1]
  unfold fsWrite
  rw [fsRead_cons_ne _ _ _ _ hn2, fsRead_fsRemove_ne _ _ _ hn2]

theorem updateHtmlTemplate_other_files (fuel : Nat) (b : Bool) (clk : Clock) (s s' : State)
    (n : List Nat) (hn1 : setupPage ≠ n) (hn2 : setupPage ++ lit ".new" ≠ n)
    (h : updateHtmlTemplate fuel setupTemplate b clk s = some s') :
    fsRead s'.files n = fsRead s.files n := by
  rw [updateHtmlTemplate_setup] at h
  cases hr : fsRead s.files setupTemplate with
  | none =>
    rw [hr] at h
    simp only [Option.some.injEq] at h
    rw [← h]
  | some content =>
    rw [hr] at h
    simp only [] at h
    cases hsub : substitute fuel s.config (getTimestamp s.wifimode clk) (readString content) with
    | none => rw [hsub] at h; cases h
    | some html =>
      rw [hsub] at h
      simp only [Option.map_some', Option.some.injEq] at h
      rw [← h]
      exact fsRead_rebuiltFiles_other _ _ _ hn1 hn2

theorem coreLoopService_files (millis : Nat) (s : State) :
    (coreLoopService millis s).files = s.files := by
  unfold coreLoopService
  simp only []
  split <;> split <;> rfl

theorem coreLoopRebuild_other_files (fuel : Nat) (clk : Clock) (s s' : State) (n : List Nat)
    (hn1 : setupPage ≠ n) (hn2 : setupPage ++ lit ".new" ≠ n)
    (h : coreLoopRebuild fuel clk s = Outcome.returned s') :
    fsRead s'.files n = fsRead s.files n := by
  unfold coreLoopRebuild at h
  by_cases hsu : s.setup_needs_update = true
  · rw [if_pos hsu] at h
    cases hu : updateHtmlTemplate fuel setupTemplate false clk s with
    | none => rw [hu] at h; cases h
    | some s2 =>
      rw [hu] at h
      simp only [Outcome.returned.injEq] at h
      rw [← h]
      exact updateHtmlTemplate_other_files _ _ _ s s2 n hn1 hn2 hu
  · rw [if_neg hsu] at h
    simp only [Outcome.returned.injEq] at h
    rw [h]

theorem coreLoopRebuild_not_restarted (fuel : Nat) (clk : Clock) (s s' : State) :
    coreLoopRebuild fuel clk s ≠ Outcome.restarted s' := by
  unfold coreLoopRebuild
  by_cases hsu : s.setup_needs_update = true
  · rw [if_pos hsu]
    cases updateHtmlTemplate fuel setupTemplate false clk s <;> simp
  · rw [if_neg hsu]
    simp

/-- A call of `coreLoop` leaves every file other than the generated page as it is. -/
theorem coreLoop_other_files (fuel millis : Nat) (clk : Clock) (heap : List Nat)
    (console1 console2 : Option ConsoleInput) (s s' : State) (n : List Nat)
    (hn1 : setupPage ≠ n) (hn2 : setupPage ++ lit ".new" ≠ n)
    (h : coreLoop fuel millis clk heap console1 console2 s = Outcome.returned s' ∨
      coreLoop fuel millis clk heap console1 console2 s = Outcome.restarted s') :
    fsRead s'.files n = fsRead s.files n := by
  unfold coreLoop at h
  cases hl : LOG_HANDLE heap console1 s with
  | none =>
    rw [hl] at h
    rcases h with h | h <;> cases h
  | some s0 =>
    have h0 := LOG_HANDLE_files heap console1 s s0 hl
    rw [hl] at h
    simp only [] at h
    by_cases hrb : s0.esp_reboot_requested = true
    · rw [if_pos hrb] at h
      cases hl2 : LOG_HANDLE heap console2
          { s0 with trace := s0.trace ++ [Action.ElegantOTA_loop, Action.delay 1000] } with
      | none =>
        rw [hl2] at h
        rcases h with h | h <;> cases h
      | some s2 =>
        have h2 := LOG_HANDLE_files heap console2 _ s2 hl2
        rw [hl2] at h
        rcases h with h | h
        · cases h
        · simp only [Outcome.restarted.injEq] at h
          rw [← h]
          show fsRead s2.files n = _
          rw [h2]
          show fsRead s0.files n = _
          rw [h0]
    · rw [if_neg hrb] at h
      by_cases hd : s0.wifimode ≠ WiFiMode.WIFI_AP ∧ s0.wifiState = WiFiEvent.WIFI_DISCONNECTED
      · rw [if_pos hd] at h
        rcases h with h | h
        · simp only [Outcome.returned.injEq] at h
          rw [← h, ← h0]
        · cases h
      · rw [if_neg hd] at h
        rcases h with h | h
        · rw [coreLoopRebuild_other_files _ _ _ _ n hn1 hn2 h, coreLoopService_files, h0]
        · exact absurd h (coreLoopRebuild_not_restarted _ _ _ _)

theorem fsRead_fsAppend (fs : FileSystem) (name content : List Nat) :
    fsRead (fsAppend fs name content) name = some ((fsRead fs name).getD [] ++ content) := by
  unfold fsAppend
  cases h : fsRead fs name with
  | none => simp [fsRead_cons_self]
  | some old =>
    simp only [Option.getD_some]
    unfold fsWrite
    exact fsRead_cons_self _ _ _

theorem signal_names_distinct :
    lastSignalFile ≠ signalsFile ∧ setupPage ≠ signalsFile ∧
    setupPage ++ lit ".new" ≠ signalsFile ∧ setupPage ≠ lastSignalFile ∧
    setupPage ++ lit ".new" ≠ lastSignalFile := by
  decide

theorem fsRead_saveCapture_history (cap : Capture) (heap : List Nat) (clk : Clock)
    (s : State) :
    fsRead (saveCapture cap heap clk s).files signalsFile =
      some ((fsRead s.files signalsFile).getD [] ++
        (getTimestamp s.wifimode clk ++ lit ": [" ++ cstr (rawBytes cap.raw ++ heap) ++
          lit "]\n")) := by
  unfold saveCapture fsWrite
  simp only []
  rw [fsRead_cons_ne _ _ _ _ signal_names_distinct.1,
    fsRead_fsRemove_ne _ _ _ signal_names_distinct.1, fsRead_fsAppend]

theorem history_record_changes (old : Option (List Nat)) (ts text : List Nat) :
    some (old.getD [] ++ (ts ++ lit ": [" ++ text ++ lit "]\n")) ≠ old := by
  cases old with
  | none => simp
  | some x =>
    simp only [Option.getD_some, ne_eq, Option.some.injEq]
    intro h
    have hl := congrArg List.length h
    have h3 : (lit ": [").length = 3 := by decide
    simp only [List.length_append, h3] at hl
    omega

/-- What one iteration of `loop()` does to the two signal artifacts: when the decoder reports
a capture that is neither a repeat nor an overflow, one record is appended to the history
log and the snapshot is replaced by the first `rawlen` bytes of the memory at the
capture's array; otherwise, and when `coreLoop` restarts the device, both artifacts stay
as they are. -/
theorem loop_artifacts (fuel millis : Nat) (clk : Clock) (heap : List Nat)
    (console1 console2 : Option ConsoleInput) (cap : Option Capture) (rawHeap : List Nat)
    (capClk : Clock) (s : State) (w : WatchDog) :
    (∀ s2, (loop fuel millis clk heap console1 console2 cap rawHeap capClk s w).1 =
        Outcome.returned s2 →
      ∃ s1, coreLoop fuel millis clk heap console1 console2 s = Outcome.returned s1 ∧
        (∀ c, cap = some c → c.repeat_flag = false → c.overflow = false →
          fsRead s2.files signalsFile =
            some ((fsRead s.files signalsFile).getD [] ++
              (getTimestamp s1.wifimode capClk ++ lit ": [" ++
                cstr (rawBytes c.raw ++ rawHeap) ++ lit "]\n")) ∧
          fsRead s2.files lastSignalFile = some ((rawBytes c.raw ++ rawHeap).take c.rawlen) ∧
          fsRead s2.files signalsFile ≠ fsRead s.files signalsFile) ∧
        ((∀ c, cap = some c → c.repeat_flag = true ∨ c.overflow = true) →
          fsRead s2.files signalsFile = fsRead s.files signalsFile ∧
          fsRead s2.files lastSignalFile = fsRead s.files lastSignalFile)) ∧
    (∀ s2, (loop fuel millis clk heap console1 console2 cap rawHeap capClk s w).1 =
        Outcome.restarted s2 →
      fsRead s2.files signalsFile = fsRead s.files signalsFile ∧
      fsRead s2.files lastSignalFile = fsRead s.files lastSignalFile) := by
  obtain ⟨d1, d2, d3, d4, d5⟩ := signal_names_distinct
  unfold loop
  cases hcl : coreLoop fuel millis clk heap console1 console2 s with
  | diverged =>
    refine ⟨?_, ?_⟩ <;> intro s2 h <;> simp at h
  | restarted s1 =>
    refine ⟨?_, ?_⟩
    · intro s2 h; simp at h
    · intro s2 h
      simp only [Outcome.restarted.injEq] at h
      subst h
      exact ⟨coreLoop_other_files _ _ _ _ _ _ _ _ _ d2 d3 (Or.inr hcl),
        coreLoop_other_files _ _ _ _ _ _ _ _ _ d4 d5 (Or.inr hcl)⟩
  | returned s1 =>
    have hsig := coreLoop_other_files _ _ _ _ _ _ _ _ _ d2 d3 (Or.inl hcl)
    have hlast := coreLoop_other_files _ _ _ _ _ _ _ _ _ d4 d5 (Or.inl hcl)
    refine ⟨?_, ?_⟩
    · intro s2 h
      simp only [Outcome.returned.injEq] at h
      refine ⟨s1, rfl, ?_, ?_⟩
      · intro c hc hr ho
        subst hc
        simp only [hr, ho, and_self, if_true] at h
        subst h
        have hh := fsRead_saveCapture_history c rawHeap capClk s1
        rw [hsig] at hh
        refine ⟨hh, fsRead_saveCapture_snapshot c rawHeap capClk s1, ?_⟩
        rw [hh]
        exact history_record_changes _ _ _
      · intro hrej
        cases cap with
        | none =>
          simp only [] at h
          subst h
          exact ⟨hsig, hlast⟩
        | some c =>
          have hno : ¬ (c.repeat_flag = false ∧ c.overflow = false) := by
            rcases hrej c rfl with h1 | h1 <;> simp [h1]
          simp only [hno, if_false] at h
          subst h
          exact ⟨hsig, hlast⟩
    · intro s2 h
      simp at h

set_option maxRecDepth 100000 in
/-- C12 (code at the failing input): an iteration of `loop()` that receives the capture
9000, 4500, 560, 560 (eight bytes) leaves a snapshot of five bytes, the first two
durations and half of the third, whatever the snapshot held before; the capture
9000, 4500, 560, 1680 leaves the same snapshot, so the snapshot does not hold the current
capture. The history log receives its record: the previous content is a prefix of the
new one. -/
theorem snapshot_is_not_the_capture (rawHeap : List Nat) (capClk : Clock) (s : State) :
    (loop 1 1000 ⟨1000, none⟩ [] none none (some captureNec) rawHeap capClk idleApState
        WatchDog.armed).1 =
      Outcome.returned (saveCapture captureNec rawHeap capClk
        { idleApState with
          trace := idleApState.trace ++ [Action.dnsServer_processNextRequest] }) ∧
    fsRead (saveCapture captureNec rawHeap capClk s).files lastSignalFile =
      some [40, 35, 148, 17, 48] ∧
    rawBytes captureNec.raw = [40, 35, 148, 17, 48, 2, 48, 2] ∧
    fsRead (saveCapture captureNecOne rawHeap capClk s).files lastSignalFile =
      some [40, 35, 148, 17, 48] ∧
    captureNec.raw ≠ captureNecOne.raw ∧
    fsRead (saveCapture captureNec rawHeap capClk s).files signalsFile =
      some ((fsRead s.files signalsFile).getD [] ++
        (getTimestamp s.wifimode capClk ++ lit ": [" ++
          cstr (rawBytes captureNec.raw ++ rawHeap) ++ lit "]\n")) := by
  refine ⟨?_, ?_, by decide, ?_, by decide, fsRead_saveCapture_history _ _ _ _⟩
  · have hc : coreLoop 1 1000 ⟨1000, none⟩ [] none none idleApState =
        Outcome.returned { idleApState with
          trace := idleApState.trace ++ [Action.dnsServer_processNextRequest] } := by
      decide
    unfold loop
    rw [hc]
    rfl
  · rw [fsRead_saveCapture_snapshot]
    rfl
  · rw [fsRead_saveCapture_snapshot]
    rfl

theorem wireConfig_flag (s : State) :
    (wireConfig s).esp_reboot_requested = s.esp_reboot_requested := rfl

/-- A line loop of the command `S` that is entered with a character other than the carriage
return ends exactly when a carriage return is read. -/
theorem readLine_eq_none_iff (polls : List (Option Nat)) (c : Nat) (line : List Nat) (n : Nat)
    (hc : c ≠ 13) : readLine polls c line n = none ↔ some 13 ∉ polls := by
  induction polls generalizing c line n with
  | nil => simp [readLine, hc]
  | cons p rest ih =>
    cases p with
    | none =>
      unfold readLine
      rw [if_neg hc, ih c line (n + 1) hc]
      simp
    | some ch =>
      unfold readLine
      by_cases h13 : ch = 13
      · subst h13
        simp
      · simp only [h13, if_false]
        rw [ih ch _ (n + 1) h13]
        simp only [List.mem_cons, Option.some.injEq, not_or]
        constructor
        · intro hr
          exact ⟨fun h => h13 h.symm, hr⟩
        · intro hr
          exact hr.2

/-- A console command other than `S` returns; the command `S` never returns when no
carriage return arrives. -/
theorem checkForRemoteCommand_returns (heap : List Nat) (inp : ConsoleInput) (s : State) :
    (inp.c ≠ Char.toNat 'S' → ∃ s', checkForRemoteCommand heap inp s = some s') ∧
    (inp.c = Char.toNat 'S' → some 13 ∉ inp.polls →
      checkForRemoteCommand heap inp s = none) := by
  constructor
  · intro hS
    unfold checkForRemoteCommand
    split
    · exact ⟨_, rfl⟩
    split
    · exact ⟨_, rfl⟩
    split
    · exact ⟨_, rfl⟩
    split
    · exact ⟨_, rfl⟩
    split
    · exact ⟨_, rfl⟩
    split
    · split
      · exact ⟨_, rfl⟩
      · split <;> exact ⟨_, rfl⟩
    · exact ⟨_, rfl⟩
  · intro hS hno
    have hD : inp.c ≠ Char.toNat 'D' := by rw [hS]; decide
    have h13 : inp.c ≠ 13 := by rw [hS]; decide
    unfold checkForRemoteCommand
    rw [if_neg hD, if_pos hS, (readLine_eq_none_iff inp.polls inp.c [] 0 h13).mpr hno]

/-- C13 (amended): a tick that starts with the reboot flag set and finds no console command
serves the web OTA collaborator once, waits 1000 ms and restarts the device, and does
nothing else. With console commands pending in a debug build the tick runs them in its two
`LOG_HANDLE()` calls; it never returns to its caller, it restarts the device when both
calls return, adding only the actions of the console commands to the shutdown sequence,
and it never ends when a command `S` waits for a line that is not completed. No operation
of the program clears the flag. -/
theorem reboot_pending_tick (fuel millis : Nat) (clk : Clock) (heap : List Nat)
    (console1 console2 : Option ConsoleInput) (s : State)
    (h : s.esp_reboot_requested = true) :
    coreLoop fuel millis clk heap none none s = Outcome.restarted
      { s with trace := s.trace ++
          [Action.ElegantOTA_loop, Action.delay 1000, Action.ESP_restart] } ∧
    (∀ s', coreLoop fuel millis clk heap console1 console2 s ≠ Outcome.returned s') ∧
    (coreLoop fuel millis clk heap console1 console2 s = Outcome.diverged ↔
      LOG_HANDLE heap console1 s = none ∨
      ∃ s1, LOG_HANDLE heap console1 s = some s1 ∧
        LOG_HANDLE heap console2
          { s1 with trace := s1.trace ++ [Action.ElegantOTA_loop, Action.delay 1000] } =
          none) ∧
    (∀ s', coreLoop fuel millis clk heap console1 console2 s = Outcome.restarted s' →
      s'.esp_reboot_requested = true ∧ s'.files = s.files ∧
      s'.wifiState = s.wifiState ∧ s'.ap_mode_activity = s.ap_mode_activity ∧
      ∃ l1 l2, s'.trace = s.trace ++ l1 ++ [Action.ElegantOTA_loop, Action.delay 1000] ++
          l2 ++ [Action.ESP_restart] ∧
        ∀ a ∈ l1 ++ l2, a = Action.WiFi_disconnect ∨ a = Action.disconnectClient ∨
          a = Action.irrecv_pause ∨ (∃ d k, a = Action.irsend_sendRaw d k) ∨
          a = Action.irrecv_resume ∨ a = Action.watchDogRefresh) ∧
    (∀ hp inp, (inp.c ≠ Char.toNat 'S' → ∃ s', checkForRemoteCommand hp inp s = some s') ∧
      (inp.c = Char.toNat 'S' → some 13 ∉ inp.polls →
        checkForRemoteCommand hp inp s = none)) ∧
    (∀ r, (webHandler r s).esp_reboot_requested = true) ∧
    (∀ success, (onOTAEnd success s).esp_reboot_requested = true) ∧
    (ArduinoOTA_onEnd s).esp_reboot_requested = true ∧
    disconnectHandler s = s ∧
    (∀ hp inp s', checkForRemoteCommand hp inp s = some s' →
      s'.esp_reboot_requested = true) ∧
    (wireConfig s).esp_reboot_requested = true ∧
    (∀ a b c, (saveConfig a b c s).esp_reboot_requested = true) ∧
    (wipeConfig s).esp_reboot_requested = true ∧
    (∀ fl name b k s', updateHtmlTemplate fl name b k s = some s' →
      s'.esp_reboot_requested = true) ∧
    (∀ cap hp k, (saveCapture cap hp k s).esp_reboot_requested = true) := by
  refine ⟨?_, ?_, ?_, ?_, fun hp inp => checkForRemoteCommand_returns hp inp s, ?_, ?_, rfl,
    ?_, fun hp inp s' hs => (checkForRemoteCommand_frame hp inp s s' hs).2.2.2.1 h, h,
    fun _ _ _ => h, h, ?_, fun _ _ _ => h⟩
  · unfold coreLoop LOG_HANDLE
    simp [h]
  · intro s'
    unfold coreLoop
    cases hl : LOG_HANDLE heap console1 s with
    | none => simp
    | some s1 =>
      have hf1 := (LOG_HANDLE_frame heap console1 s s1 hl).2.2.2.1 h
      simp only []
      rw [if_pos hf1]
      cases LOG_HANDLE heap console2
        { s1 with trace := s1.trace ++ [Action.ElegantOTA_loop, Action.delay 1000] } <;> simp
  · unfold coreLoop
    cases hl : LOG_HANDLE heap console1 s with
    | none => simp
    | some s1 =>
      have hf1 := (LOG_HANDLE_frame heap console1 s s1 hl).2.2.2.1 h
      simp only []
      rw [if_pos hf1]
      cases hl2 : LOG_HANDLE heap console2
        { s1 with trace := s1.trace ++ [Action.ElegantOTA_loop, Action.delay 1000] } with
      | none => simp [hl2]
      | some s2 => simp [hl2]
  · intro s' hs
    unfold coreLoop at hs
    cases hl : LOG_HANDLE heap console1 s with
    | none => rw [hl] at hs; cases hs
    | some s1 =>
      obtain ⟨hfi1, hws1, hact1, hfl1, l1, ht1, hl1⟩ := LOG_HANDLE_frame heap console1 s s1 hl
      rw [hl] at hs
      simp only [] at hs
      rw [if_pos (hfl1 h)] at hs
      cases hl2 : LOG_HANDLE heap console2
        { s1 with trace := s1.trace ++ [Action.ElegantOTA_loop, Action.delay 1000] } with
      | none => rw [hl2] at hs; cases hs
      | some s2 =>
        obtain ⟨hfi2, hws2, hact2, hfl2, l2, ht2, hl2'⟩ := LOG_HANDLE_frame heap console2 _ s2 hl2
        rw [hl2] at hs
        simp only [Outcome.restarted.injEq] at hs
        subst hs
        refine ⟨hfl2 (hfl1 h), ?_, ?_, ?_, l1, l2, ?_, ?_⟩
        · show s2.files = s.files
          rw [hfi2]
          exact hfi1
        · show s2.wifiState = s.wifiState
          rw [hws2]
          exact hws1
        · show s2.ap_mode_activity = s.ap_mode_activity
          rw [hact2]
          exact hact1
        · show s2.trace ++ [Action.ESP_restart] = _
          rw [ht2]
          show s1.trace ++ [Action.ElegantOTA_loop, Action.delay 1000] ++ l2 ++
            [Action.ESP_restart] = _
          rw [ht1]
        · intro a ha
          rcases List.mem_append.mp ha with ha | ha
          · exact hl1 a ha
          · exact hl2' a ha
  · intro r
    cases r <;> simp [webHandler, h, saveConfig, wireConfig, wipeConfig]
  · intro b
    unfold onOTAEnd
    split
    · rfl
    · exact h
  · unfold disconnectHandler
    simp [h]
  · intro fl name b k s' hs
    obtain ⟨_, _, _, _, hrb, _, _, _⟩ := updateHtmlTemplate_frame _ _ _ _ _ _ hs
    rw [hrb]
    exact h

theorem reboot_pending_tick_witness :
    coreLoop 1 1000 ⟨1000, none⟩ [] none none (webHandler Request.reboot idleApState) =
      Outcome.restarted
        { webHandler Request.reboot idleApState with
          trace := (webHandler Request.reboot idleApState).trace ++
            [Action.ElegantOTA_loop, Action.delay 1000, Action.ESP_restart] } :=
  (reboot_pending_tick 1 1000 ⟨1000, none⟩ [] none none (webHandler Request.reboot idleApState)
    (by decide)).1

set_option maxRecDepth 100000 in
/-- C13 as stated fails in a debug build: with the reboot flag set and the command `S`
pending, followed by `net` and no carriage return, the tick never ends and the device is
not restarted; with the command `W` pending the tick restarts the device after it has
wiped the stored configuration, which is more than the shutdown sequence. -/
theorem reboot_tick_console_counterexample :
    (webHandler Request.reboot idleApState).esp_reboot_requested = true ∧
    coreLoop 1 1000 ⟨1000, none⟩ [] (some commandSNoEnter) none
      (webHandler Request.reboot idleApState) = Outcome.diverged ∧
    (webHandler Request.reboot apFallbackState).esp_reboot_requested = true ∧
    coreLoop 1 1000 ⟨1000, none⟩ [] (some commandW) none
        (webHandler Request.reboot apFallbackState) =
      Outcome.restarted
        { wipeConfig (webHandler Request.reboot apFallbackState) with
          trace := (webHandler Request.reboot apFallbackState).trace ++
            [Action.ElegantOTA_loop, Action.delay 1000, Action.ESP_restart] } ∧
    (webHandler Request.reboot apFallbackState).config.ssid_flag = CFG_SET ∧
    (wipeConfig (webHandler Request.reboot apFallbackState)).config.ssid_flag = CFG_NOT_SET ∧
    (wipeConfig (webHandler Request.reboot apFallbackState)).eeprom ≠
      (webHandler Request.reboot apFallbackState).eeprom := by
  refine ⟨by decide, by decide, by decide, by decide, by decide, by decide, by decide⟩

/-- C15 (amended): the two-phase watchdog as a state machine, and what it means in time:
the restart comes at an expiry exactly when the flag is still set from the previous
expiry, that is when the timer period between the two expiries held no refresh; a main
loop that refreshes in every span of one interval is never restarted, and one that stalls
for two full intervals is restarted. -/
theorem two_phase_watchdog (r : List Nat) (n : Nat) (w : WatchDog) :
    (w.restarted = false → w.timer_pinged = false →
      wdStep w WdEvent.expiry = { w with timer_pinged := true }) ∧
    (w.restarted = false →
      (wdStep w WdEvent.refresh).timer_pinged = false ∧
      (wdStep w WdEvent.refresh).restarted = false) ∧
    (w.restarted = false →
      ((wdStep w WdEvent.expiry).restarted = true ↔ w.timer_pinged = true)) ∧
    ((wdRun r n).restarted = false →
      ((wdRun r (n + 1)).restarted = true ↔ 1 ≤ n ∧ refreshesIn r n = [])) ∧
    ((∀ a, a + wdInterval ≤ n * wdInterval → ∃ t ∈ r, a ≤ t ∧ t < a + wdInterval) →
      (wdRun r n).restarted = false) ∧
    (∀ a, a + 2 * wdInterval ≤ n * wdInterval →
      (∀ t ∈ r, ¬ (a ≤ t ∧ t < a + 2 * wdInterval)) → (wdRun r n).restarted = true) := by
  have hT : wdInterval = 15000 := rfl
  have hiff := (wdRun_invariant r n).1
  refine ⟨?_, ?_, ?_, ?_, ?_, ?_⟩
  · intro h1 h2
    simp [wdStep, TimerHandler, h1, h2]
  · intro h1
    obtain ⟨p, rs⟩ := w
    simp only at h1
    subst h1
    cases p <;> simp [wdStep, watchDogRefresh]
  · intro h1
    obtain ⟨p, rs⟩ := w
    simp only at h1
    subst h1
    cases p <;> simp [wdStep, TimerHandler]
  · intro hn
    rw [(wdRun_invariant r (n + 1)).1]
    constructor
    · rintro ⟨k, h1, h2, h3⟩
      have hk : k = n := by
        by_contra hne
        have := hiff.mpr ⟨k, h1, by omega, h3⟩
        rw [hn] at this
        exact absurd this (by decide)
      subst hk
      exact ⟨h1, h3⟩
    · rintro ⟨h1, h3⟩
      exact ⟨n, h1, by omega, h3⟩
  · intro hall
    cases hrs : (wdRun r n).restarted with
    | false => rfl
    | true =>
      exfalso
      obtain ⟨k, h1, h2, h3⟩ := hiff.mp hrs
      have hle : k * wdInterval + wdInterval ≤ n * wdInterval := by
        have : (k + 1) * wdInterval ≤ n * wdInterval := Nat.mul_le_mul_right _ (by omega)
        rw [Nat.add_mul, Nat.one_mul] at this
        exact this
      obtain ⟨t, ht, hb⟩ := hall (k * wdInterval) hle
      have := (refreshesIn_eq_nil r k).mp h3 t ht
      rw [Nat.add_mul, Nat.one_mul] at this
      exact this hb
  · intro a ha hnone
    apply hiff.mpr
    rw [hT] at ha hnone
    refine ⟨a / 15000 + 1, by omega, by omega, ?_⟩
    rw [refreshesIn_eq_nil]
    intro t ht hcon
    apply hnone t ht
    rw [hT] at hcon
    omega

theorem two_phase_watchdog_witness :
    wdStep WatchDog.armed WdEvent.expiry = { WatchDog.armed with timer_pinged := true } ∧
    ((wdRun [100, 14900] 2).restarted = true ↔ 1 ≤ 1 ∧ refreshesIn [100, 14900] 1 = []) ∧
    (wdRun [100, 14000, 29000] 2).restarted = false ∧
    (wdRun [100, 14000] 3).restarted = true :=
  ⟨(two_phase_watchdog [] 0 WatchDog.armed).1 (by decide) (by decide),
   (two_phase_watchdog [100, 14900] 1 WatchDog.armed).2.2.2.1 (by decide),
   (two_phase_watchdog [100, 14000, 29000] 2 WatchDog.armed).2.2.2.2.1 (by
      intro a ha
      have hT : wdInterval = 15000 := rfl
      rw [hT] at ha ⊢
      by_cases h1 : a ≤ 100
      · exact ⟨100, by simp, by omega⟩
      · by_cases h2 : a ≤ 14000
        · exact ⟨14000, by simp, by omega⟩
        · exact ⟨29000, by simp, by omega⟩),
   (two_phase_watchdog [100, 14000] 3 WatchDog.armed).2.2.2.2.2 14001 (by decide)
      (by decide)⟩

/-- A main loop that refreshes at 0.1 s, 14.9 s and 30.1 s has a refresh in every span of
two intervals and never stalls for two intervals, and is restarted at the second
expiry. -/
theorem two_interval_counterexample :
    (∀ a, a + 2 * wdInterval ≤ 3 * wdInterval →
      ∃ t ∈ [100, 14900, 30100], a ≤ t ∧ t < a + 2 * wdInterval) ∧
    (wdRun [100, 14900, 30100] 2).restarted = true ∧
    (wdRun [100, 14900, 30100] 3).restarted = true := by
  refine ⟨?_, by decide, by decide⟩
  intro a ha
  have hT : wdInterval = 15000 := rfl
  rw [hT] at ha ⊢
  by_cases h1 : a ≤ 100
  · exact ⟨100, by simp, by omega⟩
  · by_cases h2 : a ≤ 14900
    · exact ⟨14900, by simp, by omega⟩
    · exact ⟨30100, by simp, by omega⟩

theorem retryLoop_le (status : Nat → Bool) (k x : Nat) : retryLoop status k x ≤ x + k := by
  induction k generalizing x with
  | zero => simp [retryLoop]
  | succ k ih =>
    unfold retryLoop
    split
    · omega
    · have := ih (x + 1)
      omega

theorem retryLoop_not_connected (status : Nat → Bool) (k x : Nat) :
    ∀ t, x ≤ t → t < retryLoop status k x → status t = false := by
  induction k generalizing x with
  | zero =>
    intro t h1 h2
    simp only [retryLoop] at h2
    omega
  | succ k ih =>
    intro t h1 h2
    unfold retryLoop at h2
    by_cases hs : status x = true
    · rw [if_pos hs] at h2
      omega
    · rw [if_neg hs] at h2
      by_cases hx : t = x
      · subst hx
        simpa using hs
      · exact ih (x + 1) t (by omega) h2

theorem retryLoop_exit (status : Nat → Bool) (k x : Nat) :
    retryLoop status k x < x + k → status (retryLoop status k x) = true := by
  induction k generalizing x with
  | zero =>
    intro h
    simp only [retryLoop] at h
    omega
  | succ k ih =>
    intro h
    unfold retryLoop at h ⊢
    by_cases hs : status x = true
    · rw [if_pos hs]
      exact hs
    · rw [if_neg hs] at h ⊢
      exact ih (x + 1) (by omega)

theorem totalDelay_append (a b : List Action) :
    totalDelay (a ++ b) = totalDelay a + totalDelay b := by
  simp [totalDelay]

theorem totalDelay_blinks (k : Nat) :
    totalDelay (List.replicate k Action.blink) = k * 500 := by
  induction k with
  | zero => rfl
  | succ k ih =>
    rw [List.replicate_succ]
    have hc : totalDelay (Action.blink :: List.replicate k Action.blink)
        = 500 + totalDelay (List.replicate k Action.blink) := by
      simp [totalDelay, Action.delayMs, blink]
    rw [hc, ih]
    omega

/-- C16 (amended): the association wait of `coreSetup` makes at most 120 attempts, each
one after a status check that was not connected and each one delaying 200 + 100 + 200 =
500 ms, so the boot sequence waits at most 60000 ms before the access-point fallback. -/
theorem association_wait_bounded (status : Bool → Nat → Bool) (scan : List Candidate)
    (e : List Nat) (files : FileSystem) :
    blinkCount status scan (wireConfig (powerOn e files)) ≤ 120 ∧
    (∀ t, t < blinkCount status scan (wireConfig (powerOn e files)) →
      status true t = false) ∧
    (stationAttempt scan (wireConfig (powerOn e files)) = true →
      blinkCount status scan (wireConfig (powerOn e files)) < 120 →
      status true (blinkCount status scan (wireConfig (powerOn e files))) = true) ∧
    Action.delayMs Action.blink = 500 ∧
    totalDelay (bootNetwork status scan e files).trace =
      blinkCount status scan (wireConfig (powerOn e files)) * 500 ∧
    totalDelay (bootNetwork status scan e files).trace ≤ 60000 := by
  have ht0 : (wireConfig (powerOn e files)).trace = [] := rfl
  unfold bootNetwork
  generalize wireConfig (powerOn e files) = s0 at *
  have hle : blinkCount status scan s0 ≤ 120 := by
    unfold blinkCount
    split
    · have := retryLoop_le (status true) 120 0
      omega
    · omega
  have htot : totalDelay (coreSetupNetwork status scan s0).trace =
      blinkCount status scan s0 * 500 := by
    unfold coreSetupNetwork
    simp only [ht0, List.nil_append]
    have hb500 : LolinIR.blink.sum = 500 := by decide
    by_cases ha : stationAttempt scan s0 = true
    · split <;> split <;>
        simp [ha, totalDelay_append, totalDelay_blinks, totalDelay, Action.delayMs, hb500]
    · have hb : blinkCount status scan s0 = 0 := by
        unfold blinkCount
        simp [ha]
      split <;> simp [ha, hb, totalDelay, Action.delayMs]
  refine ⟨hle, ?_, ?_, rfl, htot, by omega⟩
  · intro t ht
    unfold blinkCount at ht
    split at ht
    · exact retryLoop_not_connected (status true) 120 0 t (by omega) ht
    · omega
  · intro ha hlt
    unfold blinkCount at hlt ⊢
    rw [if_pos ha] at hlt ⊢
    exact retryLoop_exit (status true) 120 0 (by omega)

theorem association_wait_bounded_witness :
    blinkCount (WiFi_status connectsAfterThree) homeNetScan
      (wireConfig (powerOn homeNetEeprom [])) < 120 →
    WiFi_status connectsAfterThree true
      (blinkCount (WiFi_status connectsAfterThree) homeNetScan
        (wireConfig (powerOn homeNetEeprom []))) = true :=
  (association_wait_bounded (WiFi_status connectsAfterThree) homeNetScan homeNetEeprom
    []).2.2.1 (by decide)

set_option maxRecDepth 100000 in
/-- An association that never completes keeps the boot sequence waiting 120 times 500 ms,
which is 60000 ms and more than 36000 ms. -/
theorem association_wait_counterexample :
    totalDelay (bootNetwork (WiFi_status neverAssociates) homeNetScan homeNetEeprom []).trace
      = 60000 ∧
    ¬ totalDelay (bootNetwork (WiFi_status neverAssociates) homeNetScan homeNetEeprom
      []).trace ≤ 36000 ∧
    Action.delayMs Action.blink ≠ 300 := by
  decide

set_option maxRecDepth 100000 in
/-- C17 (code at the failing input): the handlers of `/setup`, `/reboot`, `/save`, `/load`
and `/wipe` leave `ap_mode_activity` as it is, while those of `/`, the captive-portal
probes and the not-found fallback set it; after a `/setup` request in access-point mode
the tick at 300000 ms still sets the reboot flag through the idle rule. -/
theorem setup_request_is_no_activity :
    (∀ s : State, (webHandler Request.setup s).ap_mode_activity = s.ap_mode_activity ∧
      (webHandler Request.reboot s).ap_mode_activity = s.ap_mode_activity ∧
      (webHandler Request.load s).ap_mode_activity = s.ap_mode_activity ∧
      (∀ a b c, (webHandler (Request.save a b c) s).ap_mode_activity = s.ap_mode_activity) ∧
      (∀ n, (webHandler (Request.wipe n) s).ap_mode_activity = s.ap_mode_activity) ∧
      (webHandler Request.root s).ap_mode_activity = true ∧
      (webHandler Request.captive s).ap_mode_activity = true ∧
      (webHandler Request.notFound s).ap_mode_activity = true) ∧
    (webHandler Request.setup idleApState).ap_mode_activity = false ∧
    coreLoop 1 300000 ⟨300000, none⟩ [] none none (webHandler Request.setup idleApState) =
      Outcome.returned
        { idleApState with
          trace := idleApState.trace ++ [Action.dnsServer_processNextRequest]
          esp_reboot_requested := true } ∧
    coreLoop 1 300000 ⟨300000, none⟩ [] none none (webHandler Request.root idleApState) =
      Outcome.returned
        { idleApState with
          trace := idleApState.trace ++ [Action.dnsServer_processNextRequest]
          ap_mode_activity := true } := by
  refine ⟨?_, by decide, by decide, by decide⟩
  intro s
  refine ⟨rfl, rfl, rfl, fun _ _ _ => rfl, ?_, rfl, rfl, rfl⟩
  intro n
  cases n <;> rfl

/-- C18 (amended): `/load` and the console command `L` load the stored record into
`config`, recompute `wifimode` from it and set `setup_needs_update`; the stored record, the
reboot flag, the activity flag, the last Wi-Fi event, the files and the trace stay as they
are. -/
theorem load_frame (heap : List Nat) (inp : ConsoleInput) (s : State) :
    webHandler Request.load s =
      { s with config := (wireConfig s).config, wifimode := (wireConfig s).wifimode,
               setup_needs_update := true } ∧
    (inp.c = Char.toNat 'L' →
      checkForRemoteCommand heap inp s = some (webHandler Request.load s)) ∧
    (webHandler Request.load s).eeprom = s.eeprom ∧
    (webHandler Request.load s).esp_reboot_requested = s.esp_reboot_requested ∧
    (webHandler Request.load s).ap_mode_activity = s.ap_mode_activity ∧
    (webHandler Request.load s).wifiState = s.wifiState ∧
    (webHandler Request.load s).files = s.files ∧
    (webHandler Request.load s).trace = s.trace ∧
    (webHandler Request.load s).wifimode =
      (if (EEPROM_get s.eeprom).ssid_flag = CFG_SET then
        (if 0 < (cstr ((EEPROM_get s.eeprom).ssid ++
            (EEPROM_get s.eeprom).ssid_pwd_flag :: (EEPROM_get s.eeprom).ssid_pwd)).length
          then WiFiMode.WIFI_STA else s.wifimode)
      else WiFiMode.WIFI_AP) := by
  refine ⟨rfl, ?_, rfl, rfl, rfl, rfl, rfl, rfl, ?_⟩
  · intro hc
    unfold checkForRemoteCommand
    simp [hc, webHandler]
  · show (wireConfig s).wifimode = _
    exact wireConfig_wifimode s

theorem load_frame_witness :
    checkForRemoteCommand [] commandL apFallbackState =
      some (webHandler Request.load apFallbackState) :=
  (load_frame [] commandL apFallbackState).2.1 (by decide)

/-- On a device that fell back to access-point mode with an SSID stored, `/load` changes
`wifimode` to station mode. -/
theorem load_changes_wifimode_counterexample :
    apFallbackState.wifimode = WiFiMode.WIFI_AP ∧
    (webHandler Request.load apFallbackState).wifimode = WiFiMode.WIFI_STA ∧
    Option.map State.wifimode (checkForRemoteCommand [] commandL apFallbackState) =
      some WiFiMode.WIFI_STA := by
  decide

theorem replaceWhile_hostname_self (fuel : Nat) :
    replaceWhile (lit "{hostname}") (lit "{hostname}") fuel hostnamePage = none := by
  induction fuel with
  | zero => rfl
  | succ n ih =>
    have h1 : indexOf hostnamePage (lit "{hostname}") ≠ -1 := by decide
    have h2 : replace hostnamePage (lit "{hostname}") (lit "{hostname}") = hostnamePage := by
      decide
    unfold replaceWhile
    rw [if_pos h1, h2]
    exact ih

theorem updateHtmlTemplate_hostname_self (fuel : Nat) (clk : Clock) (s : State)
    (hh : s.config.hostnameStr = lit "{hostname}")
    (hf : fsRead s.files setupTemplate = some hostnamePage) :
    updateHtmlTemplate fuel setupTemplate false clk s = none := by
  have hr : readString hostnamePage = hostnamePage := by decide
  rw [updateHtmlTemplate_setup, hf]
  simp only [hr]
  unfold substitute substituteConfig
  rw [hh, replaceWhile_hostname_self]
  rfl

/-- C19 (code at the failing input): once the hostname `{hostname}` has been saved, the
rebuild of a template that holds `{hostname}` does not finish within any number of
iterations of its first substitution loop, and neither does the tick that makes it. -/
theorem rebuild_diverges (fuel millis : Nat) (clk : Clock) :
    loopingState.config.hostnameStr = lit "{hostname}" ∧
    loopingState.setup_needs_update = true ∧
    updateHtmlTemplate fuel setupTemplate false clk loopingState = none ∧
    coreLoop fuel millis clk [] none none loopingState = Outcome.diverged := by
  have hh : loopingState.config.hostnameStr = lit "{hostname}" := by decide
  have hf : fsRead loopingState.files setupTemplate = some hostnamePage := by decide
  refine ⟨hh, by decide, updateHtmlTemplate_hostname_self fuel clk loopingState hh hf, ?_⟩
  rw [coreLoop_ap_idle fuel millis clk [] loopingState (by decide) (by decide) (by decide)]
  have hsu : loopingState.setup_needs_update = true := by decide
  rw [if_pos hsu]
  have hnone := updateHtmlTemplate_hostname_self fuel clk
    { loopingState with
      trace := loopingState.trace ++ [Action.dnsServer_processNextRequest]
      esp_reboot_requested := decide (300000 ≤ millis) } hh hf
  rw [hnone]

end LolinIR
